/-
Verification of the squish-ccr single-palette fitter, PCA eigensolver,
gamma lookup tables and the integer SIMD color type.

Shallow embedding conventions:
* 32-bit SSE integer lanes are modelled as natural numbers, with `% 2^32`
  (resp. `% 2^16` for the 16-bit `_mm_mullo_epi16` halves) applied exactly
  where the hardware wraps (src/simd_sse.h).
* IEEE-754 single-precision arithmetic is modelled as exact rational
  arithmetic; transcendental primitives (atan2, cos, sin, cbrt, sqrt) have
  no closed rational form and are passed as an explicit parameter record
  (`FloatPrims`), so theorems about the eigensolver's control flow hold for
  every implementation of those primitives (src/maths.cpp).
* The stateful fitter `SinglePaletteFit::ComputeEndPoints`
  (src/singlepalettefit.cpp) is modelled by explicit state passing: the
  fields it touches (`m_start[set]`, `m_end[set]`, `m_index`,
  `m_entry[set]`) form the state record `SPFState`.
* The quantizer `vQuantizer` and the palette-lookup tables are declared in
  headers that are not part of the three translated sources; the fitter only
  calls `q.LookUpLattice`, reads `q.gridinv.A()` and indexes the tables, so
  they are modelled as opaque data (function-valued fields), exactly the
  interface the translated code consumes.
-/
import Mathlib

namespace Squish

/-! ### Col4: the 4-lane 32-bit integer SIMD type (src/simd_sse.h) -/

/-- One 4-lane 32-bit integer register.  Lanes `r g b a` are the 32-bit
lanes 0..3 of the `__m128i`, each a natural number below `2^32`. -/
structure Col4 where
  r : ℕ
  g : ℕ
  b : ℕ
  a : ℕ
deriving DecidableEq

/-- 32-bit wrapping addition (`_mm_add_epi32`, one lane). -/
def add32 (x y : ℕ) : ℕ := (x + y) % 2 ^ 32

/-- 32-bit wrapping subtraction (`_mm_sub_epi32`, one lane); operands are
32-bit patterns, the result is the two's-complement difference. -/
def sub32 (x y : ℕ) : ℕ := (x + (2 ^ 32 - y % 2 ^ 32)) % 2 ^ 32

/-- `_mm_mullo_epi16` restricted to one 32-bit lane: the lane is split in
two 16-bit halves, each half is multiplied and the low 16 bits kept. -/
def mullo16 (x y : ℕ) : ℕ :=
  (x % 2 ^ 16) * (y % 2 ^ 16) % 2 ^ 16
    + 2 ^ 16 * ((x / 2 ^ 16 % 2 ^ 16) * (y / 2 ^ 16 % 2 ^ 16) % 2 ^ 16)

/-- `Col4::operator*` (src/simd_sse.h:241-245): `_mm_mullo_epi16`. -/
def col4Mul (l r : Col4) : Col4 :=
  ⟨mullo16 l.r r.r, mullo16 l.g r.g, mullo16 l.b r.b, mullo16 l.a r.a⟩

/-- `Col4::operator*(Col4, int)` (src/simd_sse.h:247-251):
`_mm_mullo_epi16` against the broadcast scalar. -/
def col4MulScalar (l : Col4) (s : ℕ) : Col4 := col4Mul l ⟨s, s, s, s⟩

/-- `MultiplyAdd` on Col4 (src/simd_sse.h:437-442): `a*b + c` with the
16-bit multiply and a 32-bit add. -/
def col4MultiplyAdd (a b c : Col4) : Col4 :=
  let p := col4Mul a b
  ⟨add32 p.r c.r, add32 p.g c.g, add32 p.b c.b, add32 p.a c.a⟩

/-- `NegativeMultiplySubtract` on Col4 (src/simd_sse.h:444-449):
`c - a*b` with the 16-bit multiply and a 32-bit subtract. -/
def col4NegativeMultiplySubtract (a b c : Col4) : Col4 :=
  let p := col4Mul a b
  ⟨sub32 c.r p.r, sub32 c.g p.g, sub32 c.b p.b, sub32 c.a p.a⟩

/-- `HorizontalAdd` on Col4 (src/simd_sse.h:479-492, SSE2 path): add the
SWAP64 shuffle (lanes 2,3,0,1), then the SWAP32 shuffle (lanes 3,2,1,0). -/
def col4HorizontalAdd (v : Col4) : Col4 :=
  let s : Col4 := ⟨add32 v.r v.b, add32 v.g v.a, add32 v.b v.r, add32 v.a v.g⟩
  ⟨add32 s.r s.a, add32 s.g s.b, add32 s.b s.g, add32 s.a s.r⟩

/-- `Dot` on Col4 (src/simd_sse.h:550-554): horizontal add of the
`_mm_mullo_epi16` products. -/
def col4Dot (l r : Col4) : Col4 := col4HorizontalAdd (col4Mul l r)

/-- `_mm_cmpeq_epi32`, one lane: all-ones (`2^32 - 1`) if equal, else 0. -/
def cmpeq32 (x y : ℕ) : ℕ := if x = y then 2 ^ 32 - 1 else 0

/-- Byte `j` (0..3) of a 32-bit lane. -/
def laneByte (x : ℕ) (j : ℕ) : ℕ := x / 2 ^ (8 * j) % 2 ^ 8

/-- `_mm_movemask_epi8` of a register given as four 32-bit lanes: bit `i`
of the result is the sign bit of byte `i`. -/
def movemask_epi8 (v : Col4) : ℕ :=
  (List.range 16).foldl
    (fun acc i =>
      acc + 2 ^ i * (laneByte ([v.r, v.g, v.b, v.a].getD (i / 4) 0) (i % 4) / 2 ^ 7))
    0

/-- `CompareAnyLessThan` on Col4 (src/simd_sse.h:574-579): despite the
name, the source compares the lanes with `_mm_cmpeq_epi32` and tests the
byte movemask against zero. -/
def col4CompareAnyLessThan (l r : Col4) : Bool :=
  let bits : Col4 := ⟨cmpeq32 l.r r.r, cmpeq32 l.g r.g, cmpeq32 l.b r.b, cmpeq32 l.a r.a⟩
  movemask_epi8 bits != 0

/-! ### PCA: the closed-form symmetric 3x3 eigensolver (src/maths.cpp) -/

/-- A 3-component float vector (class `Vec3`), lanes as exact rationals. -/
structure Vec3 where
  x : ℚ
  y : ℚ
  z : ℚ
deriving DecidableEq

/-- `Sym3x3`: the six upper-triangular entries `m[0] .. m[5]` of a
symmetric 3x3 matrix (rows (0,1,2),(1,3,4),(2,4,5)). -/
structure Sym3x3 where
  e0 : ℚ
  e1 : ℚ
  e2 : ℚ
  e3 : ℚ
  e4 : ℚ
  e5 : ℚ
deriving DecidableEq

/-- The transcendental single-precision primitives the eigensolver calls
(`std::atan2`, `std::cos`, `std::sin`, `Vec4::cbrt`, `Vec4::sqrt` and the
constant `(float)sqrt(3.0f)`).  They have no exact rational form, so the
embedding abstracts them; every theorem about the solver's control flow is
proved for all implementations. -/
structure FloatPrims where
  atan2 : ℚ → ℚ → ℚ
  cos : ℚ → ℚ
  sin : ℚ → ℚ
  cbrt : ℚ → ℚ
  sqrt : ℚ → ℚ
  sqrt3 : ℚ

/-- `FLT_EPSILON`, the single-precision machine epsilon `2^-23`. -/
def FLT_EPSILON : ℚ := 1 / 2 ^ 23

/-- Characteristic-cubic constant coefficient `c0` (src/maths.cpp:198). -/
def cubicC0 (s : Sym3x3) : ℚ :=
  s.e0 * s.e3 * s.e5 + 2 * s.e1 * s.e2 * s.e4
    - s.e0 * s.e4 * s.e4 - s.e3 * s.e2 * s.e2 - s.e5 * s.e1 * s.e1

/-- Characteristic-cubic linear coefficient `c1` (src/maths.cpp:203). -/
def cubicC1 (s : Sym3x3) : ℚ :=
  s.e0 * s.e3 + s.e0 * s.e5 + s.e3 * s.e5
    - s.e1 * s.e1 - s.e2 * s.e2 - s.e4 * s.e4

/-- Characteristic-cubic quadratic coefficient `c2` (src/maths.cpp:205). -/
def cubicC2 (s : Sym3x3) : ℚ := s.e0 + s.e3 + s.e5

/-- Depressed-cubic coefficient `a = c1 - c2^2/3` (src/maths.cpp:208). -/
def cubicA (s : Sym3x3) : ℚ := cubicC1 s - 1 / 3 * (cubicC2 s * cubicC2 s)

/-- Depressed-cubic coefficient `b = -2 c2^3/27 + c1 c2/3 - c0`
(src/maths.cpp:209). -/
def cubicB (s : Sym3x3) : ℚ :=
  -2 / 27 * (cubicC2 s * cubicC2 s * cubicC2 s)
    + 1 / 3 * (cubicC1 s * cubicC2 s) - cubicC0 s

/-- Discriminant `Q = b^2/4 + a^3/27` (src/maths.cpp:212). -/
def cubicQ (s : Sym3x3) : ℚ :=
  1 / 4 * (cubicB s * cubicB s) + 1 / 27 * (cubicA s * cubicA s * cubicA s)

/-- List view of the six entries, for stating index lemmas. -/
def Sym3x3.idx (s : Sym3x3) (n : ℕ) : ℚ := [s.e0, s.e1, s.e2, s.e3, s.e4, s.e5].getD n 0

/-- One iteration of the largest-|component| scan shared by
`GetMultiplicity1Evector` and `GetMultiplicity2Evector`
(src/maths.cpp:124-135, 163-174): the running pair (best absolute value,
its index) is replaced only on a strict increase. -/
def absStep (p : ℚ × ℕ) (v : ℚ) (i : ℕ) : ℚ × ℕ := if |v| > p.1 then (|v|, i) else p

/-- The unrolled five-iteration scan, started at `(|u0|, 0)`. -/
def maxAbsIdx6 (u0 u1 u2 u3 u4 u5 : ℚ) : ℕ :=
  (absStep (absStep (absStep (absStep (absStep (|u0|, 0) u1 1) u2 2) u3 3) u4 4) u5 5).2

/-- `M = Σ - λI` (src/maths.cpp:106-113 and 155-161). -/
def subM (s : Sym3x3) (lam : ℚ) : Sym3x3 :=
  ⟨s.e0 - lam, s.e1, s.e2, s.e3 - lam, s.e4, s.e5 - lam⟩

/-- The adjugate entries `U` of `GetMultiplicity1Evector`
(src/maths.cpp:115-122). -/
def adjU (m : Sym3x3) : Sym3x3 :=
  ⟨m.e3 * m.e5 - m.e4 * m.e4, m.e2 * m.e4 - m.e1 * m.e5, m.e1 * m.e4 - m.e2 * m.e3,
   m.e0 * m.e5 - m.e2 * m.e2, m.e1 * m.e2 - m.e4 * m.e0, m.e0 * m.e3 - m.e1 * m.e1⟩

/-- The scan result `mi` of `GetMultiplicity1Evector` over `U`. -/
def m1idx (s : Sym3x3) (evalue : ℚ) : ℕ :=
  maxAbsIdx6 (adjU (subM s evalue)).e0 (adjU (subM s evalue)).e1
    (adjU (subM s evalue)).e2 (adjU (subM s evalue)).e3
    (adjU (subM s evalue)).e4 (adjU (subM s evalue)).e5

/-- `GetMultiplicity1Evector` (src/maths.cpp:104-150): form `M = Σ - λI`,
its adjugate `U`, and return the column of `U` holding the entry of
largest absolute value (`switch (mi)`: 0 -> first column, 1 or 3 -> second
column, default -> third column). -/
def GetMultiplicity1Evector (s : Sym3x3) (evalue : ℚ) : Vec3 :=
  if m1idx s evalue = 0 then
    ⟨(adjU (subM s evalue)).e0, (adjU (subM s evalue)).e1, (adjU (subM s evalue)).e2⟩
  else if m1idx s evalue = 1 ∨ m1idx s evalue = 3 then
    ⟨(adjU (subM s evalue)).e1, (adjU (subM s evalue)).e3, (adjU (subM s evalue)).e4⟩
  else
    ⟨(adjU (subM s evalue)).e2, (adjU (subM s evalue)).e4, (adjU (subM s evalue)).e5⟩

/-- The scan result `mi` of `GetMultiplicity2Evector` over `M`. -/
def m2idx (s : Sym3x3) (evalue : ℚ) : ℕ :=
  maxAbsIdx6 (subM s evalue).e0 (subM s evalue).e1 (subM s evalue).e2
    (subM s evalue).e3 (subM s evalue).e4 (subM s evalue).e5

/-- `GetMultiplicity2Evector` (src/maths.cpp:152-193): form `M = Σ - λI`
and return a null-column vector chosen by the largest-magnitude entry
(`switch (mi)`: 0 or 1, 2, 3 or 4, default). -/
def GetMultiplicity2Evector (s : Sym3x3) (evalue : ℚ) : Vec3 :=
  if m2idx s evalue = 0 ∨ m2idx s evalue = 1 then
    ⟨-(subM s evalue).e1, (subM s evalue).e0, 0⟩
  else if m2idx s evalue = 2 then
    ⟨(subM s evalue).e2, 0, -(subM s evalue).e0⟩
  else if m2idx s evalue = 3 ∨ m2idx s evalue = 4 then
    ⟨0, -(subM s evalue).e4, (subM s evalue).e3⟩
  else
    ⟨0, -(subM s evalue).e5, (subM s evalue).e4⟩

/-- Trigonometric root `l1` of the three-distinct-roots branch
(src/maths.cpp:223-231). -/
def triRoot1 (P : FloatPrims) (s : Sym3x3) : ℚ :=
  let theta := P.atan2 (P.sqrt (-cubicQ s)) (-(1 / 2) * cubicB s)
  let rho := P.sqrt (1 / 4 * (cubicB s * cubicB s) - cubicQ s)
  let rt := P.cbrt rho
  let ct := P.cos (theta / 3)
  1 / 3 * cubicC2 s + 2 * rt * ct

/-- Trigonometric root `l2` (src/maths.cpp:232). -/
def triRoot2 (P : FloatPrims) (s : Sym3x3) : ℚ :=
  let theta := P.atan2 (P.sqrt (-cubicQ s)) (-(1 / 2) * cubicB s)
  let rho := P.sqrt (1 / 4 * (cubicB s * cubicB s) - cubicQ s)
  let rt := P.cbrt rho
  let ct := P.cos (theta / 3)
  let st := P.sin (theta / 3)
  1 / 3 * cubicC2 s - rt * (ct + P.sqrt3 * st)

/-- Trigonometric root `l3` (src/maths.cpp:233). -/
def triRoot3 (P : FloatPrims) (s : Sym3x3) : ℚ :=
  let theta := P.atan2 (P.sqrt (-cubicQ s)) (-(1 / 2) * cubicB s)
  let rho := P.sqrt (1 / 4 * (cubicB s * cubicB s) - cubicQ s)
  let rt := P.cbrt rho
  let ct := P.cos (theta / 3)
  let st := P.sin (theta / 3)
  1 / 3 * cubicC2 s - rt * (ct - P.sqrt3 * st)

/-- The "pick the larger" chain of src/maths.cpp:235-239: keep `l1`,
overwrite with `l2` then `l3` on a strictly larger absolute value. -/
def pickMaxAbs3 (l1 l2 l3 : ℚ) : ℚ :=
  let m := if |l2| > |l1| then l2 else l1
  if |l3| > |m| then l3 else m

/-- Signed cube-root sub-expression `rt` of the double-root branch
(src/maths.cpp:247-253). -/
def dblRt (P : FloatPrims) (s : Sym3x3) : ℚ :=
  if cubicB s < 0 then -P.cbrt (-(1 / 2) * cubicB s) else P.cbrt (1 / 2 * cubicB s)

/-- The repeated root `l1 = c2/3 + rt` of the double-root branch
(src/maths.cpp:255). -/
def dblRepeated (P : FloatPrims) (s : Sym3x3) : ℚ := 1 / 3 * cubicC2 s + dblRt P s

/-- The distinct root `l2 = c2/3 - 2 rt` of the double-root branch
(src/maths.cpp:256). -/
def dblDistinct (P : FloatPrims) (s : Sym3x3) : ℚ := 1 / 3 * cubicC2 s - 2 * dblRt P s

/-- `ComputePrincipleComponent` (src/maths.cpp:195-264). -/
def ComputePrincipleComponent (P : FloatPrims) (s : Sym3x3) : Vec3 :=
  if FLT_EPSILON < cubicQ s then
    ⟨1, 1, 1⟩
  else if cubicQ s < -FLT_EPSILON then
    GetMultiplicity1Evector s (pickMaxAbs3 (triRoot1 P s) (triRoot2 P s) (triRoot3 P s))
  else
    if |dblRepeated P s| > |dblDistinct P s| then
      GetMultiplicity2Evector s (dblRepeated P s)
    else
      GetMultiplicity1Evector s (dblDistinct P s)

/-- The 256 entries of `baseLUT_sRGB` (src/maths.cpp:274-306), transcribed literally. -/
def baseLUT_sRGB_data : List ℚ :=
  [
   0.0, 0.000303527, 0.00114819, 0.00132772, 0.00152264, 0.00173331, 0.00196007, 0.00220325,
   0.00246318, 0.00274017, 0.00303452, 0.00334654, 0.00367651, 0.00402472, 0.00439144, 0.00477695,
   0.00518152, 0.00560539, 0.00604883, 0.00651209, 0.00699541, 0.00749903, 0.00802319, 0.00856813,
   0.00913406, 0.00972122, 0.0103298, 0.0109601, 0.0116122, 0.0122865, 0.012983, 0.0137021,
   0.0144438, 0.0152085, 0.0159963, 0.0168074, 0.017642, 0.0185002, 0.0193824, 0.0202886,
   0.021219, 0.0221739, 0.0231534, 0.0241576, 0.0251869, 0.0262412, 0.0273209, 0.028426,
   0.0295568, 0.0307134, 0.031896, 0.0331048, 0.0343398, 0.0356013, 0.0368894, 0.0382044,
   0.0395462, 0.0409152, 0.0423114, 0.043735, 0.0451862, 0.0466651, 0.0481718, 0.0497066,
   0.0512695, 0.0528606, 0.0544803, 0.0561285, 0.0578054, 0.0595112, 0.0612461, 0.06301,
   0.0648033, 0.0666259, 0.0684782, 0.0703601, 0.0722719, 0.0742136, 0.0761854, 0.0781874,
   0.0802198, 0.0822827, 0.0843762, 0.0865005, 0.0886556, 0.0908417, 0.093059, 0.0953075,
   0.0975873, 0.0998987, 0.102242, 0.104616, 0.107023, 0.109462, 0.111932, 0.114435,
   0.116971, 0.119538, 0.122139, 0.124772, 0.127438, 0.130136, 0.132868, 0.135633,
   0.138432, 0.141263, 0.144128, 0.147027, 0.14996, 0.152926, 0.155926, 0.158961,
   0.162029, 0.165132, 0.168269, 0.171441, 0.174647, 0.177888, 0.181164, 0.184475,
   0.187821, 0.191202, 0.194618, 0.198069, 0.201556, 0.205079, 0.208637, 0.212231,
   0.215861, 0.219526, 0.223228, 0.226966, 0.23074, 0.234551, 0.238398, 0.242281,
   0.246201, 0.250158, 0.254152, 0.258183, 0.262251, 0.266356, 0.270498, 0.274677,
   0.278894, 0.283149, 0.287441, 0.291771, 0.296138, 0.300544, 0.304987, 0.309469,
   0.313989, 0.318547, 0.323143, 0.327778, 0.332452, 0.337164, 0.341914, 0.346704,
   0.351533, 0.3564, 0.361307, 0.366253, 0.371238, 0.376262, 0.381326, 0.386429,
   0.391572, 0.396755, 0.401978, 0.40724, 0.412543, 0.417885, 0.423268, 0.42869,
   0.434154, 0.439657, 0.445201, 0.450786, 0.456411, 0.462077, 0.467784, 0.473531,
   0.47932, 0.48515, 0.491021, 0.496933, 0.502886, 0.508881, 0.514918, 0.520996,
   0.527115, 0.533276, 0.539479, 0.545724, 0.552011, 0.55834, 0.564712, 0.571125,
   0.57758, 0.584078, 0.590619, 0.597202, 0.603827, 0.610496, 0.617207, 0.62396,
   0.630757, 0.637597, 0.64448, 0.651406, 0.658375, 0.665387, 0.672443, 0.679542,
   0.686685, 0.693872, 0.701102, 0.708376, 0.715693, 0.723055, 0.730461, 0.73791,
   0.745404, 0.752942, 0.760525, 0.768151, 0.775822, 0.783538, 0.791298, 0.799103,
   0.806952, 0.814847, 0.822786, 0.83077, 0.838799, 0.846873, 0.854993, 0.863157,
   0.871367, 0.879622, 0.887923, 0.896269, 0.904661, 0.913099, 0.921582, 0.930111,
   0.938686, 0.947307, 0.955973, 0.964686, 0.973445, 0.982251, 0.991102, 1.0]

/-- The 256 entries of `baseLUT_Linear` (src/maths.cpp:307-339), transcribed literally. -/
def baseLUT_Linear_data : List ℚ :=
  [
   0.0, 0.00392157, 0.00784314, 0.0117647, 0.0156863, 0.0196078, 0.0235294, 0.027451,
   0.0313726, 0.0352941, 0.0392157, 0.0431373, 0.0470588, 0.0509804, 0.054902, 0.0588235,
   0.0627451, 0.0666667, 0.0705882, 0.0745098, 0.0784314, 0.0823529, 0.0862745, 0.0901961,
   0.0941176, 0.0980392, 0.101961, 0.105882, 0.109804, 0.113725, 0.117647, 0.121569,
   0.12549, 0.129412, 0.133333, 0.137255, 0.141176, 0.145098, 0.14902, 0.152941,
   0.156863, 0.160784, 0.164706, 0.168627, 0.172549, 0.176471, 0.180392, 0.184314,
   0.188235, 0.192157, 0.196078, 0.2, 0.203922, 0.207843, 0.211765, 0.215686,
   0.219608, 0.223529, 0.227451, 0.231373, 0.235294, 0.239216, 0.243137, 0.247059,
   0.25098, 0.254902, 0.258824, 0.262745, 0.266667, 0.270588, 0.27451, 0.278431,
   0.282353, 0.286275, 0.290196, 0.294118, 0.298039, 0.301961, 0.305882, 0.309804,
   0.313726, 0.317647, 0.321569, 0.32549, 0.329412, 0.333333, 0.337255, 0.341176,
   0.345098, 0.34902, 0.352941, 0.356863, 0.360784, 0.364706, 0.368627, 0.372549,
   0.376471, 0.380392, 0.384314, 0.388235, 0.392157, 0.396078, 0.4, 0.403922,
   0.407843, 0.411765, 0.415686, 0.419608, 0.423529, 0.427451, 0.431373, 0.435294,
   0.439216, 0.443137, 0.447059, 0.45098, 0.454902, 0.458824, 0.462745, 0.466667,
   0.470588, 0.47451, 0.478431, 0.482353, 0.486275, 0.490196, 0.494118, 0.498039,
   0.501961, 0.505882, 0.509804, 0.513726, 0.517647, 0.521569, 0.52549, 0.529412,
   0.533333, 0.537255, 0.541176, 0.545098, 0.54902, 0.552941, 0.556863, 0.560784,
   0.564706, 0.568627, 0.572549, 0.576471, 0.580392, 0.584314, 0.588235, 0.592157,
   0.596078, 0.6, 0.603922, 0.607843, 0.611765, 0.615686, 0.619608, 0.623529,
   0.627451, 0.631373, 0.635294, 0.639216, 0.643137, 0.647059, 0.65098, 0.654902,
   0.658824, 0.662745, 0.666667, 0.670588, 0.67451, 0.678431, 0.682353, 0.686275,
   0.690196, 0.694118, 0.698039, 0.701961, 0.705882, 0.709804, 0.713726, 0.717647,
   0.721569, 0.72549, 0.729412, 0.733333, 0.737255, 0.741176, 0.745098, 0.74902,
   0.752941, 0.756863, 0.760784, 0.764706, 0.768627, 0.772549, 0.776471, 0.780392,
   0.784314, 0.788235, 0.792157, 0.796078, 0.8, 0.803922, 0.807843, 0.811765,
   0.815686, 0.819608, 0.823529, 0.827451, 0.831373, 0.835294, 0.839216, 0.843137,
   0.847059, 0.85098, 0.854902, 0.858824, 0.862745, 0.866667, 0.870588, 0.87451,
   0.878431, 0.882353, 0.886275, 0.890196, 0.894118, 0.898039, 0.901961, 0.905882,
   0.909804, 0.913725, 0.917647, 0.921569, 0.92549, 0.929412, 0.933333, 0.937255,
   0.941176, 0.945098, 0.94902, 0.952941, 0.956863, 0.960784, 0.964706, 0.968627,
   0.972549, 0.976471, 0.980392, 0.984314, 0.988235, 0.992157, 0.996078, 1.0]

/-- `ComputeGammaLUT` (src/maths.cpp:345-347): selects the sRGB or the
linear 256-entry error LUT.  Entries are indexed as a total function. -/
def ComputeGammaLUT (sRGB : Bool) : ℕ → ℚ :=
  fun i => (if sRGB then baseLUT_sRGB_data else baseLUT_Linear_data).getD i 0

/-- A shifted eigenvalue candidate large enough that the adjugate entry
`u0` of `Σ - λI` exceeds 1 in absolute value; used to witness that the
non-triple-root branches can yield a vector other than `(1,1,1)`. -/
def bigShift (s : Sym3x3) : ℚ := 2 + |s.e0| + |s.e3| + |s.e5| + s.e4 * s.e4

/-- Adversarial primitive implementations for the matrix `s`: constants
arranged so that the root handed to `GetMultiplicity1Evector` is
`bigShift s` whichever non-triple-root branch runs. -/
def badPrims (s : Sym3x3) : FloatPrims where
  atan2 := fun _ _ => 0
  cos := fun _ => 1
  sin := fun _ => 0
  cbrt := fun _ =>
    if cubicQ s < -FLT_EPSILON ∨ cubicB s < 0 then
      (bigShift s - 1 / 3 * cubicC2 s) / 2
    else
      (1 / 3 * cubicC2 s - bigShift s) / 2
  sqrt := fun _ => 0
  sqrt3 := 0

/-! ### The single-palette fitter (src/singlepalettefit.cpp) -/

/-- A 4-component float vector (class `Vec4`), lanes as exact rationals. -/
structure Vec4 where
  x : ℚ
  y : ℚ
  z : ℚ
  w : ℚ
deriving DecidableEq

/-- Lane access (`X()/Y()/Z()/W()`, `GetO(o)`). -/
def Vec4.lane (v : Vec4) : Fin 4 → ℚ
  | 0 => v.x
  | 1 => v.y
  | 2 => v.z
  | 3 => v.w

/-- Lanewise product (`Vec4::operator*`, `_mm_mul_ps`). -/
def vmul (a b : Vec4) : Vec4 := ⟨a.x * b.x, a.y * b.y, a.z * b.z, a.w * b.w⟩

/-- `LengthSquared(Vec4) = Dot(v, v)` (src/simd_sse.h:1137-1140): the sum
of the squared lanes, the scalar every lane of the `Scr4` result carries. -/
def LengthSquared (v : Vec4) : ℚ :=
  v.x * v.x + v.y * v.y + v.z * v.z + v.w * v.w

/-- `FLT_MAX`, the largest finite single-precision value, `(2^24-1)*2^104`. -/
def FLT_MAX : ℚ := (2 ^ 24 - 1) * 2 ^ 104

/-- `INT_MAX`. -/
def INT_MAX : ℚ := 2147483647

/-- One record of the precomputed single-palette tables: quantized start
and end bytes and the 8-bit error (`struct SP_SourceBlock`,
src/singlepalettefit.cpp:38-43; `end` is a reserved word in Lean). -/
structure SP_SourceBlock where
  start : ℕ
  end_ : ℕ
  error : ℕ
deriving DecidableEq

/-- One single-palette lookup table, `table[target].sources[index]` as a
function of target byte and slot index.  `SinglePaletteLookup2/4/8` differ
only in the slot count, which the loop bound carries separately. -/
def SPTable := ℕ → ℕ → SP_SourceBlock

/-- The quantizer interface the fitter consumes: `q.LookUpLattice` applied
to four endpoint bytes and the alpha grid size `q.gridinv.A()`.
`vQuantizer` is declared outside the translated sources, so it is carried
as opaque data. -/
structure vQuantizer where
  LookUpLattice : ℤ → ℤ → ℤ → ℤ → Vec4
  gridinvA : ℤ

/-- The object state `SinglePaletteFit::ComputeEndPoints` reads or writes
for the processed set: `m_start[set]`, `m_end[set]`, `m_index`,
`m_entry[set]`. -/
structure SPFState where
  m_start : Vec4
  m_end : Vec4
  m_index : ℕ
  m_entry : Fin 4 → ℕ

/-- Truncation toward zero (`_mm_cvttps_epi32`, one lane). -/
def truncQ (x : ℚ) : ℤ := if x < 0 then -⌊-x⌋ else ⌊x⌋

/-- One byte of `PackBytes(FloatToInt<true>(v), ...)`: `FloatToInt<true>`
adds 0.5 and truncates (src/simd_sse.h:966-978), `PackBytes` saturates to
[0, 255] via the signed 16-bit then unsigned 8-bit packs
(src/simd_sse.h:611-619). -/
def packByte (x : ℚ) : ℕ := min (truncQ (x + 1 / 2)).toNat 255

/-- The entry bytes `m_entry[set]` computed from the palette point
(src/singlepalettefit.cpp:198). -/
def spEntry (values : Vec4) : Fin 4 → ℕ := fun c => packByte (values.lane c * 255)

/-- `sources[channel]` for slot `i`: the table record when the channel's
mask bit is set, the NULL of the initializer otherwise
(src/singlepalettefit.cpp:207-223). -/
def spSource (lookups : Fin 4 → SPTable) (cmask : ℕ) (entry : Fin 4 → ℕ)
    (i : ℕ) (c : Fin 4) : Option SP_SourceBlock :=
  if cmask.testBit c.val then some (lookups c (entry c) i) else none

/-- One lane of `cerror`: `eLUT[sources[channel]->error]` for an enabled
channel, the zero of the `cerror(0.0f)` initializer otherwise
(src/singlepalettefit.cpp:208, 221). -/
def spCError (eLUT : ℕ → ℚ) (lookups : Fin 4 → SPTable) (cmask : ℕ)
    (entry : Fin 4 → ℕ) (i : ℕ) (c : Fin 4) : ℚ :=
  match spSource lookups cmask entry i c with
  | some src => eLUT src.error
  | none => 0

/-- The slot error `LengthSquared(metric * cerror)`
(src/singlepalettefit.cpp:226). -/
def slotError (eLUT : ℕ → ℚ) (metric : Vec4) (lookups : Fin 4 → SPTable)
    (cmask : ℕ) (entry : Fin 4 → ℕ) (i : ℕ) : ℚ :=
  LengthSquared (vmul metric
    ⟨spCError eLUT lookups cmask entry i 0, spCError eLUT lookups cmask entry i 1,
     spCError eLUT lookups cmask entry i 2, spCError eLUT lookups cmask entry i 3⟩)

/-- The start byte handed to `q.LookUpLattice` when slot `i` is recorded:
the table byte, or the fixed default `0x00` (`AxFF = q.gridinv.A() - 1`
for the alpha channel) when `sources[c]` is NULL
(src/singlepalettefit.cpp:233-237). -/
def slotStartByte (q : vQuantizer) (lookups : Fin 4 → SPTable) (cmask : ℕ)
    (entry : Fin 4 → ℕ) (i : ℕ) (c : Fin 4) : ℤ :=
  match spSource lookups cmask entry i c with
  | some src => (src.start : ℤ)
  | none => if c = 3 then q.gridinvA - 1 else 0x00

/-- The end byte handed to `q.LookUpLattice` when slot `i` is recorded
(src/singlepalettefit.cpp:238-242). -/
def slotEndByte (q : vQuantizer) (lookups : Fin 4 → SPTable) (cmask : ℕ)
    (entry : Fin 4 → ℕ) (i : ℕ) (c : Fin 4) : ℤ :=
  match spSource lookups cmask entry i c with
  | some src => (src.end_ : ℤ)
  | none => if c = 3 then q.gridinvA - 1 else 0x00

/-- The state update of a recorded best slot: `m_start[set]`, `m_end[set]`
via `q.LookUpLattice`, `m_index = index` (src/singlepalettefit.cpp:233-244). -/
def updState (q : vQuantizer) (lookups : Fin 4 → SPTable) (cmask : ℕ)
    (entry : Fin 4 → ℕ) (i : ℕ) (st : SPFState) : SPFState :=
  { st with
    m_start := q.LookUpLattice
      (slotStartByte q lookups cmask entry i 0) (slotStartByte q lookups cmask entry i 1)
      (slotStartByte q lookups cmask entry i 2) (slotStartByte q lookups cmask entry i 3)
    m_end := q.LookUpLattice
      (slotEndByte q lookups cmask entry i 0) (slotEndByte q lookups cmask entry i 1)
      (slotEndByte q lookups cmask entry i 2) (slotEndByte q lookups cmask entry i 3)
    m_index := i }

/-- The `for (index)` loop (src/singlepalettefit.cpp:205-250): compute the
slot error, record a strict improvement, and return early when the best
error is no longer positive. -/
def spLoop (eLUT : ℕ → ℚ) (metric : Vec4) (q : vQuantizer)
    (lookups : Fin 4 → SPTable) (cmask : ℕ) (entry : Fin 4 → ℕ) :
    List ℕ → ℚ → SPFState → ℚ × SPFState
  | [], besterror, st => (besterror, st)
  | i :: rest, besterror, st =>
    let error := slotError eLUT metric lookups cmask entry i
    if error < besterror then
      let st' := updState q lookups cmask entry i st
      if ¬ error > 0 then (error, st')
      else spLoop eLUT metric q lookups cmask entry rest error st'
    else spLoop eLUT metric q lookups cmask entry rest besterror st

/-- The lookup-table overloads of `SinglePaletteFit::ComputeEndPoints`
with the error LUT as an explicit argument; `kn` is the codebook slot
count (2, 4 and 8 for the `SinglePaletteLookup2/4/8` overloads, which are
textually identical otherwise).  Initializes `besterror = FLT_MAX`, packs
`m_entry[set]` and runs the slot loop. -/
def spComputeEndPointsLUT (eLUT : ℕ → ℚ) (kn : ℕ) (values metric : Vec4)
    (q : vQuantizer) (lookups : Fin 4 → SPTable) (cmask : ℕ) (st : SPFState) :
    ℚ × SPFState :=
  let entry := spEntry values
  spLoop eLUT metric q lookups cmask entry (List.range kn) FLT_MAX
    { st with m_entry := entry }

/-- The fitter object: the constructor stores the caller's flag word
(src/singlepalettefit.cpp:62-65). -/
structure SinglePaletteFit where
  m_flags : ℕ

/-- The lookup-table overloads of `SinglePaletteFit::ComputeEndPoints`
(src/singlepalettefit.cpp:186-253, 255-321, 323-389): the error LUT is the
hard-coded `ComputeGammaLUT(false)`; the stored flags are not consulted. -/
def SinglePaletteFit.ComputeEndPoints (fit : SinglePaletteFit) (kn : ℕ)
    (values metric : Vec4) (q : vQuantizer) (lookups : Fin 4 → SPTable)
    (cmask : ℕ) (st : SPFState) : ℚ × SPFState :=
  spComputeEndPointsLUT (ComputeGammaLUT false) kn values metric q lookups cmask st

/-- The precomputed tables included from `singlepalettelookup.inl` (data
not part of the translated sources; contents opaque). -/
structure SPTables where
  sp_lookup_5_4 : SPTable
  sp_lookup_6_4 : SPTable
  sp_lookup_7_4 : SPTable
  sp_lookup_8_4 : SPTable
  sp_lookup_5_8 : SPTable
  sp_lookup_6_8 : SPTable
  sp_lookup_7_8 : SPTable
  sp_lookup_8_16 : SPTable

/-- How a dispatched fit can fail: an `abort()` branch, or dereferencing a
NULL channel table inside the slot loop. -/
inductive SPFailure where
  | aborted : SPFailure
  | nullLookup : SPFailure
deriving DecidableEq

/-- The channel-table array `lookups[] = { cl, cl, cl, al }` built in each
arm of the dispatcher (src/singlepalettefit.cpp:131-132, 153-154, 174-175):
the color table for channels 0-2, the alpha table (possibly NULL) for
channel 3. -/
def spChannelTables (cl : SPTable) (al : Option SPTable) : Fin 4 → Option SPTable :=
  fun c => if c.val = 3 then al else some cl

/-- Every channel enabled by `cmask` has a table: exactly the condition
under which the slot loop never dereferences a NULL `lookups[channel]`
(each enabled channel reads its table already at slot 0). -/
def maskedAvailable (lookups : Fin 4 → Option SPTable) (cmask : ℕ) : Bool :=
  (!cmask.testBit 0 || (lookups 0).isSome) &&
  (!cmask.testBit 1 || (lookups 1).isSome) &&
  (!cmask.testBit 2 || (lookups 2).isSome) &&
  (!cmask.testBit 3 || (lookups 3).isSome)

/-- Run a lookup overload on channel-table pointers that may be NULL.  A
NULL table on an enabled channel is dereferenced at the first slot
(crash); a NULL table on a disabled channel is never read (see
`spf_masked_channel_inert_*` lemmas), so any placeholder is equivalent
there. -/
def spRunLookups (kn : ℕ) (values metric : Vec4) (q : vQuantizer)
    (lookups : Fin 4 → Option SPTable) (cmask : ℕ) (st : SPFState) :
    Except SPFailure (ℚ × SPFState) :=
  if maskedAvailable lookups cmask then
    .ok (spComputeEndPointsLUT (ComputeGammaLUT false) kn values metric q
      (fun c => (lookups c).getD (fun _ _ => ⟨0, 0, 0⟩)) cmask st)
  else
    .error .nullLookup

/-- The dispatching overload of `SinglePaletteFit::ComputeEndPoints`
(src/singlepalettefit.cpp:67-184) in the default build (no
`FEATURE_SHAREDBITS_TRIALS`, src/singlepalettefit.cpp:69-80): the
shared-bit macro aliases collapse to the plain tables and `sb` is unused.
Each `ib` arm selects the color table `cl`, the alpha table `al` (NULL for
alpha-less modes) and the slot count; `abort()` on the `default:` labels. -/
def spDispatch (T : SPTables) (fit : SinglePaletteFit) (values metric : Vec4)
    (q : vQuantizer) (cb ab sb ib cmask : ℕ) (st : SPFState) :
    Except SPFailure (ℚ × SPFState) :=
  if ib = 2 then
    let cl : Option SPTable :=
      if cb = 5 then some T.sp_lookup_5_4
      else if cb = 6 then some T.sp_lookup_6_4
      else if cb = 7 then some T.sp_lookup_7_4
      else if cb = 8 then some T.sp_lookup_8_4
      else none
    match cl with
    | none => .error .aborted
    | some cl =>
      let al : Option SPTable :=
        if ab = 6 then some T.sp_lookup_6_4
        else if ab = 8 then some T.sp_lookup_8_4
        else none
      spRunLookups 2 values metric q (spChannelTables cl al) cmask st
  else if ib = 3 then
    let cl : Option SPTable :=
      if cb = 5 then some T.sp_lookup_5_8
      else if cb = 7 then some T.sp_lookup_7_8
      else none
    match cl with
    | none => .error .aborted
    | some cl =>
      let al : Option SPTable :=
        if ab = 6 then some T.sp_lookup_6_8
        else none
      spRunLookups 4 values metric q (spChannelTables cl al) cmask st
  else if ib = 4 then
    if cb = 8 then
      if ab = 8 then
        let cl := T.sp_lookup_8_16
        spRunLookups 8 values metric q (spChannelTables cl (some cl)) cmask st
      else .error .aborted
    else .error .aborted
  else
    .ok (INT_MAX, st)

/-- The enumerated support table of well-formed `(ib, cb, ab)` format
parameters. -/
def wellFormedFormat (ib cb ab : ℕ) : Prop :=
  (ib = 2 ∧ (cb = 5 ∨ cb = 6 ∨ cb = 7 ∨ cb = 8) ∧ (ab = 0 ∨ ab = 6 ∨ ab = 8)) ∨
  (ib = 3 ∧ (cb = 5 ∨ cb = 7) ∧ (ab = 0 ∨ ab = 6)) ∨
  (ib = 4 ∧ cb = 8 ∧ ab = 8)

/-! ### Reference folds used to state properties of the slot loop -/

/-- Reference fold: the running best error the strict-improvement loop
reaches over a list of slots. -/
def runBest (f : ℕ → ℚ) : List ℕ → ℚ → ℚ
  | [], b => b
  | i :: r, b => runBest f r (if f i < b then f i else b)

/-- Reference fold: the slot recorded by the last strict improvement. -/
def runUpd (f : ℕ → ℚ) : List ℕ → ℚ → Option ℕ → Option ℕ
  | [], _, cur => cur
  | i :: r, b, cur =>
    if f i < b then runUpd f r (f i) (some i) else runUpd f r b cur

/-! ### Concrete instances for witnesses and counterexamples -/

/-- A concrete table whose records are all `(0, 0, e)`. -/
def cxTable (e : ℕ) : SPTable := fun _ _ => ⟨0, 0, e⟩

/-- A concrete quantizer: the identity lattice on the four bytes, alpha
grid size 256. -/
def cxQuant : vQuantizer := ⟨fun r g b a => ⟨(r : ℚ), (g : ℚ), (b : ℚ), (a : ℚ)⟩, 256⟩

/-- A concrete state with a chosen `m_index`. -/
def cxState (ix : ℕ) : SPFState := ⟨⟨0, 0, 0, 0⟩, ⟨0, 0, 0, 0⟩, ix, fun _ => 0⟩

/-- A metric large enough that every slot error overflows `FLT_MAX`. -/
def cxHugeMetric : Vec4 := ⟨2 ^ 70, 2 ^ 70, 2 ^ 70, 2 ^ 70⟩

/-- A concrete table environment. -/
def cxTables : SPTables := ⟨cxTable 0, cxTable 0, cxTable 0, cxTable 0,
  cxTable 0, cxTable 0, cxTable 0, cxTable 0⟩

/-! ## Helper lemmas -/

lemma mullo16_small {x y : ℕ} (hx : x < 2 ^ 16) (hy : y < 2 ^ 16) :
    mullo16 x y = x * y % 2 ^ 16 := by
  unfold mullo16
  rw [Nat.mod_eq_of_lt hx, Nat.mod_eq_of_lt hy, Nat.div_eq_of_lt hx, Nat.div_eq_of_lt hy]
  simp

lemma add32_add32 (a b c d : ℕ) :
    add32 (add32 a c) (add32 d b) = (a + b + c + d) % 2 ^ 32 := by
  unfold add32
  omega

/-! ## C8: 16-bit integer multiplies in Col4 -/

/-- C8: for Col4 operands whose 32-bit lanes all lie in [0, 2^16), each
lane of the products computed by `operator*` (both overloads), `Dot`,
`MultiplyAdd` and `NegativeMultiplySubtract` is the exact per-lane product
reduced modulo 2^16 (then combined by exact 32-bit adds/subs); the lane is
the exact product whenever that product is below 2^16, and at lanes 256*256
the 16-bit multiply differs from the exact product. -/
theorem col4_products_mod_2_16 (l r c : Col4)
    (h1 : l.r < 2 ^ 16) (h2 : l.g < 2 ^ 16) (h3 : l.b < 2 ^ 16) (h4 : l.a < 2 ^ 16)
    (h5 : r.r < 2 ^ 16) (h6 : r.g < 2 ^ 16) (h7 : r.b < 2 ^ 16) (h8 : r.a < 2 ^ 16) :
    col4Mul l r = ⟨l.r * r.r % 2 ^ 16, l.g * r.g % 2 ^ 16,
      l.b * r.b % 2 ^ 16, l.a * r.a % 2 ^ 16⟩ ∧
    col4MulScalar l r.r = ⟨l.r * r.r % 2 ^ 16, l.g * r.r % 2 ^ 16,
      l.b * r.r % 2 ^ 16, l.a * r.r % 2 ^ 16⟩ ∧
    col4MultiplyAdd l r c = ⟨add32 (l.r * r.r % 2 ^ 16) c.r, add32 (l.g * r.g % 2 ^ 16) c.g,
      add32 (l.b * r.b % 2 ^ 16) c.b, add32 (l.a * r.a % 2 ^ 16) c.a⟩ ∧
    col4NegativeMultiplySubtract l r c =
      ⟨sub32 c.r (l.r * r.r % 2 ^ 16), sub32 c.g (l.g * r.g % 2 ^ 16),
       sub32 c.b (l.b * r.b % 2 ^ 16), sub32 c.a (l.a * r.a % 2 ^ 16)⟩ ∧
    col4Dot l r =
      ⟨(l.r * r.r % 2 ^ 16 + l.g * r.g % 2 ^ 16 + l.b * r.b % 2 ^ 16 + l.a * r.a % 2 ^ 16) % 2 ^ 32,
       (l.r * r.r % 2 ^ 16 + l.g * r.g % 2 ^ 16 + l.b * r.b % 2 ^ 16 + l.a * r.a % 2 ^ 16) % 2 ^ 32,
       (l.r * r.r % 2 ^ 16 + l.g * r.g % 2 ^ 16 + l.b * r.b % 2 ^ 16 + l.a * r.a % 2 ^ 16) % 2 ^ 32,
       (l.r * r.r % 2 ^ 16 + l.g * r.g % 2 ^ 16 + l.b * r.b % 2 ^ 16 + l.a * r.a % 2 ^ 16) % 2 ^ 32⟩ ∧
    (l.r * r.r < 2 ^ 16 → l.g * r.g < 2 ^ 16 → l.b * r.b < 2 ^ 16 → l.a * r.a < 2 ^ 16 →
      col4Mul l r = ⟨l.r * r.r, l.g * r.g, l.b * r.b, l.a * r.a⟩) ∧
    (col4Mul ⟨256, 1, 1, 1⟩ ⟨256, 1, 1, 1⟩).r ≠ 256 * 256 := by
  have hmul : col4Mul l r = ⟨l.r * r.r % 2 ^ 16, l.g * r.g % 2 ^ 16,
      l.b * r.b % 2 ^ 16, l.a * r.a % 2 ^ 16⟩ := by
    simp only [col4Mul, Col4.mk.injEq]
    exact ⟨mullo16_small h1 h5, mullo16_small h2 h6, mullo16_small h3 h7, mullo16_small h4 h8⟩
  refine ⟨hmul, ?_, ?_, ?_, ?_, ?_, ?_⟩
  · simp only [col4MulScalar, col4Mul, Col4.mk.injEq]
    exact ⟨mullo16_small h1 h5, mullo16_small h2 h5, mullo16_small h3 h5, mullo16_small h4 h5⟩
  · simp [col4MultiplyAdd, hmul]
  · simp [col4NegativeMultiplySubtract, hmul]
  · simp only [col4Dot, hmul, col4HorizontalAdd, Col4.mk.injEq]
    refine ⟨?_, ?_, ?_, ?_⟩ <;> unfold add32 <;> omega
  · intro g1 g2 g3 g4
    rw [hmul]
    simp only [Col4.mk.injEq]
    exact ⟨Nat.mod_eq_of_lt g1, Nat.mod_eq_of_lt g2, Nat.mod_eq_of_lt g3, Nat.mod_eq_of_lt g4⟩
  · decide

/-- Witness for C8 at a concrete input. -/
theorem col4_products_mod_2_16_witness :
    col4Mul ⟨3, 5, 7, 60000⟩ ⟨11, 13, 2, 60000⟩ =
      ⟨3 * 11 % 2 ^ 16, 5 * 13 % 2 ^ 16, 7 * 2 % 2 ^ 16, 60000 * 60000 % 2 ^ 16⟩ :=
  (col4_products_mod_2_16 ⟨3, 5, 7, 60000⟩ ⟨11, 13, 2, 60000⟩ ⟨1, 2, 3, 4⟩
    (by decide) (by decide) (by decide) (by decide)
    (by decide) (by decide) (by decide) (by decide)).1

/-! ## C10: CompareAnyLessThan is a lane-equality test -/

/-- C10: `CompareAnyLessThan` on Col4 returns true iff the two registers
hold equal values in at least one 32-bit lane; despite its name it never
performs an order comparison. -/
theorem compareAnyLessThan_iff_lane_eq (l r : Col4) :
    col4CompareAnyLessThan l r = true ↔
      (l.r = r.r ∨ l.g = r.g ∨ l.b = r.b ∨ l.a = r.a) := by
  by_cases e1 : l.r = r.r <;> by_cases e2 : l.g = r.g <;>
    by_cases e3 : l.b = r.b <;> by_cases e4 : l.a = r.a <;>
    simp only [col4CompareAnyLessThan, cmpeq32, e1, e2, e3, e4, if_pos, if_neg,
      not_false_eq_true, if_true, if_false] <;>
    simp [e1, e2, e3, e4] <;>
    decide

/-! ## C3: the sRGB error LUT and the transfer-curve break -/

/-- C3 (code bug): the sRGB LUT's own header says "sRGB spec", but the
inverse-transfer break constant `baseipartition` is 0.004045 instead of the
standard 0.04045, and the table was generated with it: entry 2 (i/255 =
0.00784, below the standard linear-branch break 0.04045) holds the
gamma-branch value 0.00114819, far from the standard linear value
(2/255)/12.92 = 0.000607; entries 0 and 255 are 0 and 1 as claimed. -/
theorem srgb_lut_break_is_shifted :
    ComputeGammaLUT true 0 = 0 ∧
    ComputeGammaLUT true 255 = 1 ∧
    ComputeGammaLUT true 2 = 0.00114819 ∧
    ((2 : ℚ) / 255 ≤ 0.04045) ∧
    |ComputeGammaLUT true 2 - ((2 : ℚ) / 255) / 12.92| > 1 / 2000 := by
  have h0 : ComputeGammaLUT true 0 = 0 := by
    have : ComputeGammaLUT true 0 = (0.0 : ℚ) := rfl
    rw [this]; norm_num
  have h255 : ComputeGammaLUT true 255 = 1 := by
    have : ComputeGammaLUT true 255 = (1.0 : ℚ) := rfl
    rw [this]; norm_num
  have h2 : ComputeGammaLUT true 2 = 0.00114819 := rfl
  refine ⟨h0, h255, h2, by norm_num, ?_⟩
  rw [h2]
  rw [abs_of_pos (by norm_num)]
  norm_num

/-! ## Eigenvector-column helper lemmas -/

lemma absStep_good (u : ℕ → ℚ) (p : ℚ × ℕ) (i : ℕ) (hi : i < 6)
    (h1 : p.1 = |u p.2|) (h2 : |u 0| ≤ p.1) (h3 : p.2 < 6) :
    (absStep p (u i) i).1 = |u (absStep p (u i) i).2| ∧
    |u 0| ≤ (absStep p (u i) i).1 ∧ (absStep p (u i) i).2 < 6 := by
  unfold absStep
  split_ifs with hg
  · exact ⟨rfl, le_of_lt (lt_of_le_of_lt h2 hg), hi⟩
  · exact ⟨h1, h2, h3⟩

lemma maxAbsIdx6_dominates (v : Sym3x3) :
    maxAbsIdx6 v.e0 v.e1 v.e2 v.e3 v.e4 v.e5 < 6 ∧
    |v.e0| ≤ |v.idx (maxAbsIdx6 v.e0 v.e1 v.e2 v.e3 v.e4 v.e5)| := by
  have g0 : (|v.idx 0|, 0).1 = |v.idx ((|v.idx 0|, 0) : ℚ × ℕ).2| ∧
      |v.idx 0| ≤ ((|v.idx 0|, 0) : ℚ × ℕ).1 ∧ ((|v.idx 0|, 0) : ℚ × ℕ).2 < 6 :=
    ⟨rfl, le_refl _, by norm_num⟩
  have g1 := absStep_good v.idx _ 1 (by norm_num) g0.1 g0.2.1 g0.2.2
  have g2 := absStep_good v.idx _ 2 (by norm_num) g1.1 g1.2.1 g1.2.2
  have g3 := absStep_good v.idx _ 3 (by norm_num) g2.1 g2.2.1 g2.2.2
  have g4 := absStep_good v.idx _ 4 (by norm_num) g3.1 g3.2.1 g3.2.2
  have g5 := absStep_good v.idx _ 5 (by norm_num) g4.1 g4.2.1 g4.2.2
  obtain ⟨h1, h2, h3⟩ := g5
  have hm : maxAbsIdx6 v.e0 v.e1 v.e2 v.e3 v.e4 v.e5
      = (absStep (absStep (absStep (absStep (absStep (|v.idx 0|, 0) (v.idx 1) 1)
          (v.idx 2) 2) (v.idx 3) 3) (v.idx 4) 4) (v.idx 5) 5).2 := by
    simp [maxAbsIdx6, Sym3x3.idx]
  rw [hm]
  exact ⟨h3, h1 ▸ h2⟩

lemma getM2_ne_ones (s : Sym3x3) (lam : ℚ) :
    GetMultiplicity2Evector s lam ≠ ⟨1, 1, 1⟩ := by
  rw [GetMultiplicity2Evector]
  split_ifs <;> simp [Vec3.mk.injEq]

lemma getM1_ne_ones (s : Sym3x3) (lam : ℚ)
    (h : 1 < (adjU (subM s lam)).e0) :
    GetMultiplicity1Evector s lam ≠ ⟨1, 1, 1⟩ := by
  obtain ⟨hlt, habs⟩ := maxAbsIdx6_dominates (adjU (subM s lam))
  have h0 : (1:ℚ) < |(adjU (subM s lam)).e0| := lt_of_lt_of_le h (le_abs_self _)
  rw [GetMultiplicity1Evector]
  have hmi : m1idx s lam = maxAbsIdx6 (adjU (subM s lam)).e0 (adjU (subM s lam)).e1
      (adjU (subM s lam)).e2 (adjU (subM s lam)).e3
      (adjU (subM s lam)).e4 (adjU (subM s lam)).e5 := rfl
  generalize hg : maxAbsIdx6 (adjU (subM s lam)).e0 (adjU (subM s lam)).e1
      (adjU (subM s lam)).e2 (adjU (subM s lam)).e3
      (adjU (subM s lam)).e4 (adjU (subM s lam)).e5 = mi at hlt habs hmi
  rw [hmi]
  interval_cases mi <;>
    simp only [Sym3x3.idx, List.getD, List.get?, List.getElem?_cons_zero,
      List.getElem?_cons_succ, Option.getD_some] at habs <;>
    norm_num <;>
    intro ha hb hc <;>
    first
      | linarith
      | (rw [ha] at habs; rw [abs_one] at habs; linarith)
      | (rw [hb] at habs; rw [abs_one] at habs; linarith)
      | (rw [hc] at habs; rw [abs_one] at habs; linarith)

/-! ## Facts about the adversarial shift `bigShift` -/

lemma bigShift_ge_two (s : Sym3x3) : 2 ≤ bigShift s := by
  rw [bigShift]
  nlinarith [abs_nonneg s.e0, abs_nonneg s.e3, abs_nonneg s.e5, mul_self_nonneg s.e4]

lemma abs_c2_le_bigShift (s : Sym3x3) : |cubicC2 s| ≤ bigShift s := by
  rw [bigShift, cubicC2]
  calc |s.e0 + s.e3 + s.e5| ≤ |s.e0 + s.e3| + |s.e5| := abs_add _ _
    _ ≤ |s.e0| + |s.e3| + |s.e5| := by linarith [abs_add s.e0 s.e3]
    _ ≤ 2 + |s.e0| + |s.e3| + |s.e5| + s.e4 * s.e4 := by nlinarith [mul_self_nonneg s.e4]

lemma bigShift_adjU_e0 (s : Sym3x3) : 1 < (adjU (subM s (bigShift s))).e0 := by
  have hA : 2 + s.e4 * s.e4 ≤ bigShift s - s.e3 := by
    rw [bigShift]
    linarith [le_abs_self s.e3, abs_nonneg s.e0, abs_nonneg s.e5]
  have hB : 2 ≤ bigShift s - s.e5 := by
    rw [bigShift]
    linarith [le_abs_self s.e5, abs_nonneg s.e0, abs_nonneg s.e3, mul_self_nonneg s.e4]
  have hprod : (2 + s.e4 * s.e4) * 2 ≤ (bigShift s - s.e3) * (bigShift s - s.e5) := by
    apply mul_le_mul hA hB (by norm_num) (by linarith [mul_self_nonneg s.e4])
  simp only [adjU, subM]
  nlinarith [mul_self_nonneg s.e4]

lemma abs_half_diff_le (c L : ℚ) (hL : 0 < L) (hc : |c| ≤ L) :
    |(c - L) / 2| ≤ |L| := by
  rw [abs_of_pos hL]
  rw [abs_le] at hc ⊢
  constructor <;> linarith [hc.1, hc.2]

/-! ## The adversarial primitives select `bigShift` as eigenvalue -/

lemma badPrims_tri_roots (s : Sym3x3) (h2 : cubicQ s < -FLT_EPSILON) :
    triRoot1 (badPrims s) s = bigShift s ∧
    triRoot2 (badPrims s) s = (cubicC2 s - bigShift s) / 2 ∧
    triRoot3 (badPrims s) s = (cubicC2 s - bigShift s) / 2 := by
  refine ⟨?_, ?_, ?_⟩ <;>
    simp only [triRoot1, triRoot2, triRoot3, badPrims, h2, true_or, if_pos] <;>
    ring

lemma badPrims_tri_sel (s : Sym3x3) (h2 : cubicQ s < -FLT_EPSILON) :
    pickMaxAbs3 (triRoot1 (badPrims s) s) (triRoot2 (badPrims s) s)
      (triRoot3 (badPrims s) s) = bigShift s := by
  obtain ⟨hb1, hb2, hb3⟩ := badPrims_tri_roots s h2
  have hL : 0 < bigShift s := lt_of_lt_of_le (by norm_num) (bigShift_ge_two s)
  have habs : |(cubicC2 s - bigShift s) / 2| ≤ |bigShift s| :=
    abs_half_diff_le _ _ hL (abs_c2_le_bigShift s)
  rw [pickMaxAbs3, hb1, hb2, hb3]
  rw [if_neg (not_lt.mpr habs), if_neg (not_lt.mpr habs)]

lemma badPrims_dbl_distinct (s : Sym3x3) (h2 : ¬ cubicQ s < -FLT_EPSILON) :
    dblDistinct (badPrims s) s = bigShift s := by
  rw [dblDistinct, dblRt]
  by_cases hb : cubicB s < 0
  · rw [if_pos hb]
    simp only [badPrims, h2, hb, or_true, false_or, if_pos]
    ring
  · rw [if_neg hb]
    simp only [badPrims, h2, hb, or_self, false_or, if_neg, not_false_eq_true]
    ring

/-! ## C5: the triple-root branch returns (1,1,1) exactly at Q above epsilon -/

/-- C5: `ComputePrincipleComponent` returns the axis `(1,1,1)` exactly
when the discriminant `Q` (computed from `a = c1 - c2^2/3` and
`b = -2c2^3/27 + c1 c2/3 - c0`) exceeds the single-precision epsilon:
whenever `FLT_EPSILON < Q` every primitive implementation yields `(1,1,1)`
(no primitive is consulted on that branch), and whenever `Q ≤ FLT_EPSILON`
some primitive implementation yields a different vector. -/
theorem principle_component_ones_iff (s : Sym3x3) :
    FLT_EPSILON < cubicQ s ↔
      ∀ P : FloatPrims, ComputePrincipleComponent P s = ⟨1, 1, 1⟩ := by
  constructor
  · intro h P
    rw [ComputePrincipleComponent, if_pos h]
  · intro h
    by_contra hq
    have hbad := h (badPrims s)
    rw [ComputePrincipleComponent, if_neg hq] at hbad
    by_cases h2 : cubicQ s < -FLT_EPSILON
    · rw [if_pos h2, badPrims_tri_sel s h2] at hbad
      exact getM1_ne_ones s (bigShift s) (bigShift_adjU_e0 s) hbad
    · rw [if_neg h2] at hbad
      by_cases h3 : |dblRepeated (badPrims s) s| > |dblDistinct (badPrims s) s|
      · rw [if_pos h3] at hbad
        exact getM2_ne_ones _ _ hbad
      · rw [if_neg h3, badPrims_dbl_distinct s h2] at hbad
        exact getM1_ne_ones s (bigShift s) (bigShift_adjU_e0 s) hbad

/-! ## C6: the eigenvalue of largest magnitude is selected -/

lemma pickMaxAbs3_ge (l1 l2 l3 : ℚ) :
    |l1| ≤ |pickMaxAbs3 l1 l2 l3| ∧ |l2| ≤ |pickMaxAbs3 l1 l2 l3| ∧
    |l3| ≤ |pickMaxAbs3 l1 l2 l3| := by
  rw [pickMaxAbs3]
  split_ifs <;> refine ⟨?_, ?_, ?_⟩ <;> linarith

/-- C6: in the three-distinct-roots branch (`Q < -eps`) the eigenvalue
handed to `GetMultiplicity1Evector` is the trigonometric root of maximal
absolute value; in the double-root branch (`|Q| <= eps`) the repeated root
`c2/3 + rt` builds a multiplicity-2 eigenvector exactly when its absolute
value strictly exceeds that of the distinct root `c2/3 - 2rt`, which
otherwise builds a multiplicity-1 eigenvector. -/
theorem principle_component_largest_root (P : FloatPrims) (s : Sym3x3) :
    (cubicQ s < -FLT_EPSILON →
      ComputePrincipleComponent P s =
        GetMultiplicity1Evector s
          (pickMaxAbs3 (triRoot1 P s) (triRoot2 P s) (triRoot3 P s)) ∧
      |triRoot1 P s| ≤ |pickMaxAbs3 (triRoot1 P s) (triRoot2 P s) (triRoot3 P s)| ∧
      |triRoot2 P s| ≤ |pickMaxAbs3 (triRoot1 P s) (triRoot2 P s) (triRoot3 P s)| ∧
      |triRoot3 P s| ≤ |pickMaxAbs3 (triRoot1 P s) (triRoot2 P s) (triRoot3 P s)|) ∧
    (¬ FLT_EPSILON < cubicQ s → ¬ cubicQ s < -FLT_EPSILON →
      (|dblRepeated P s| > |dblDistinct P s| →
        ComputePrincipleComponent P s = GetMultiplicity2Evector s (dblRepeated P s)) ∧
      (¬ |dblRepeated P s| > |dblDistinct P s| →
        ComputePrincipleComponent P s = GetMultiplicity1Evector s (dblDistinct P s))) := by
  constructor
  · intro h2
    have hq : ¬ FLT_EPSILON < cubicQ s := by
      rw [FLT_EPSILON] at *
      intro hc
      linarith
    refine ⟨?_, pickMaxAbs3_ge _ _ _⟩
    rw [ComputePrincipleComponent, if_neg hq, if_pos h2]
  · intro hq h2
    constructor
    · intro h3
      rw [ComputePrincipleComponent, if_neg hq, if_neg h2, if_pos h3]
    · intro h3
      rw [ComputePrincipleComponent, if_neg hq, if_neg h2, if_neg h3]

/-- A concrete primitive record (all-zero implementations) for witnesses. -/
theorem principle_component_largest_root_witness :
    (cubicQ ⟨0, 0, 0, 1, 0, 2⟩ < -FLT_EPSILON ∧
      ComputePrincipleComponent ⟨fun _ _ => 0, fun _ => 0, fun _ => 0,
          fun _ => 0, fun _ => 0, 0⟩ ⟨0, 0, 0, 1, 0, 2⟩ =
        GetMultiplicity1Evector ⟨0, 0, 0, 1, 0, 2⟩
          (pickMaxAbs3
            (triRoot1 ⟨fun _ _ => 0, fun _ => 0, fun _ => 0, fun _ => 0, fun _ => 0, 0⟩
              ⟨0, 0, 0, 1, 0, 2⟩)
            (triRoot2 ⟨fun _ _ => 0, fun _ => 0, fun _ => 0, fun _ => 0, fun _ => 0, 0⟩
              ⟨0, 0, 0, 1, 0, 2⟩)
            (triRoot3 ⟨fun _ _ => 0, fun _ => 0, fun _ => 0, fun _ => 0, fun _ => 0, 0⟩
              ⟨0, 0, 0, 1, 0, 2⟩))) := by
  have hq : cubicQ ⟨0, 0, 0, 1, 0, 2⟩ < -FLT_EPSILON := by
    norm_num [cubicQ, cubicA, cubicB, cubicC0, cubicC1, cubicC2, FLT_EPSILON]
  exact ⟨hq, ((principle_component_largest_root _ _).1 hq).1⟩

/-! ## Slot-loop characterization lemmas -/

lemma LengthSquared_nonneg (v : Vec4) : 0 ≤ LengthSquared v := by
  rw [LengthSquared]
  nlinarith [mul_self_nonneg v.x, mul_self_nonneg v.y, mul_self_nonneg v.z, mul_self_nonneg v.w]

lemma slotError_nonneg (eLUT : ℕ → ℚ) (metric : Vec4) (lookups : Fin 4 → SPTable)
    (cmask : ℕ) (entry : Fin 4 → ℕ) (i : ℕ) :
    0 ≤ slotError eLUT metric lookups cmask entry i :=
  LengthSquared_nonneg _

lemma runBest_const (f : ℕ → ℚ) (l : List ℕ) (b : ℚ) (h : ∀ j ∈ l, ¬ f j < b) :
    runBest f l b = b := by
  induction l with
  | nil => rfl
  | cons i r ih =>
    rw [runBest, if_neg (h i (by simp))]
    exact ih fun j hj => h j (by simp [hj])

lemma runUpd_const (f : ℕ → ℚ) (l : List ℕ) (b : ℚ) (cur : Option ℕ)
    (h : ∀ j ∈ l, ¬ f j < b) : runUpd f l b cur = cur := by
  induction l with
  | nil => rfl
  | cons i r ih =>
    rw [runUpd, if_neg (h i (by simp))]
    exact ih fun j hj => h j (by simp [hj])

lemma runUpd_cur (f : ℕ → ℚ) (l : List ℕ) :
    ∀ (b : ℚ) (i : ℕ),
      runUpd f l b (some i) =
        (match runUpd f l b none with
         | none => some i
         | some j => some j) := by
  induction l with
  | nil => intro b i; rfl
  | cons j r ih =>
    intro b i
    rw [runUpd, runUpd]
    by_cases hj : f j < b
    · rw [if_pos hj, if_pos hj, ih (f j) j]
      rcases runUpd f r (f j) none with _ | k <;> rfl
    · rw [if_neg hj, if_neg hj, ih b i]

lemma updState_absorb (q : vQuantizer) (lookups : Fin 4 → SPTable) (cmask : ℕ)
    (entry : Fin 4 → ℕ) (i j : ℕ) (st : SPFState) :
    updState q lookups cmask entry j (updState q lookups cmask entry i st) =
      updState q lookups cmask entry j st := rfl

lemma spLoop_spec (eLUT : ℕ → ℚ) (metric : Vec4) (q : vQuantizer)
    (lookups : Fin 4 → SPTable) (cmask : ℕ) (entry : Fin 4 → ℕ) (l : List ℕ) :
    ∀ (b : ℚ) (st : SPFState),
      spLoop eLUT metric q lookups cmask entry l b st =
        (runBest (slotError eLUT metric lookups cmask entry) l b,
         match runUpd (slotError eLUT metric lookups cmask entry) l b none with
         | none => st
         | some i => updState q lookups cmask entry i st) := by
  set f := slotError eLUT metric lookups cmask entry with hf
  induction l with
  | nil => intro b st; rfl
  | cons i r ih =>
    intro b st
    rw [spLoop, runBest, runUpd]
    by_cases hlt : f i < b
    · rw [if_pos hlt, if_pos hlt, if_pos hlt]
      by_cases hz : ¬ f i > 0
      · rw [if_pos hz]
        have hi0 : f i = 0 :=
          le_antisymm (not_lt.mp (by simpa using hz)) (hf ▸ slotError_nonneg _ _ _ _ _ i)
        have hnone : ∀ j ∈ r, ¬ f j < f i := by
          intro j _
          rw [hi0]
          exact not_lt.mpr (hf ▸ slotError_nonneg _ _ _ _ _ j)
        rw [runBest_const f r (f i) hnone, runUpd_const f r (f i) (some i) hnone]
      · rw [if_neg hz, ih (f i) (updState q lookups cmask entry i st)]
        rw [runUpd_cur f r (f i) i]
        rcases runUpd f r (f i) none with _ | j <;> rfl
    · rw [if_neg hlt, if_neg hlt, if_neg hlt, ih b st]

/-- The invariant of the strict-improvement fold over `List.range k`:
running minimum, last recorded slot, and least-argmin property. -/
lemma runFold_range_spec (f : ℕ → ℚ) (b : ℚ) (k : ℕ) :
    (∀ j < k, runBest f (List.range k) b ≤ f j) ∧
    runBest f (List.range k) b ≤ b ∧
    ((runUpd f (List.range k) b none = none ∧ runBest f (List.range k) b = b ∧
        ∀ j < k, b ≤ f j) ∨
     (∃ i, runUpd f (List.range k) b none = some i ∧ i < k ∧
        f i = runBest f (List.range k) b ∧ runBest f (List.range k) b < b ∧
        ∀ j < i, runBest f (List.range k) b < f j)) := by
  have hba : ∀ (l : List ℕ) (i : ℕ) (b' : ℚ),
      runBest f (l ++ [i]) b' =
        if f i < runBest f l b' then f i else runBest f l b' := by
    intro l i
    induction l with
    | nil => intro b'; rfl
    | cons j r ih => intro b'; rw [List.cons_append, runBest, runBest, ih]
  have hua : ∀ (l : List ℕ) (i : ℕ) (b' : ℚ) (cur : Option ℕ),
      runUpd f (l ++ [i]) b' cur =
        if f i < runBest f l b' then some i else runUpd f l b' cur := by
    intro l i
    induction l with
    | nil => intro b' cur; rfl
    | cons j r ih =>
      intro b' cur
      rw [List.cons_append, runUpd, runBest, runUpd]
      by_cases hj : f j < b'
      · simp only [if_pos hj]
        rw [ih]
      · simp only [if_neg hj]
        rw [ih]
  induction k with
  | zero =>
    refine ⟨by omega, le_refl b, Or.inl ⟨rfl, rfl, by omega⟩⟩
  | succ k ih =>
    obtain ⟨ihA, ihB, ihC⟩ := ih
    rw [List.range_succ]
    by_cases hk : f k < runBest f (List.range k) b
    · rw [hba, hua, if_pos hk, if_pos hk]
      refine ⟨?_, le_of_lt (lt_of_lt_of_le hk ihB), Or.inr ⟨k, rfl, by omega, rfl,
        lt_of_lt_of_le hk ihB, ?_⟩⟩
      · intro j hj
        rcases Nat.lt_succ_iff_lt_or_eq.mp hj with hj' | hj'
        · exact le_of_lt (lt_of_lt_of_le hk (ihA j hj'))
        · rw [hj']
      · intro j hj
        exact lt_of_lt_of_le hk (ihA j hj)
    · rw [hba, hua, if_neg hk, if_neg hk]
      refine ⟨?_, ihB, ?_⟩
      · intro j hj
        rcases Nat.lt_succ_iff_lt_or_eq.mp hj with hj' | hj'
        · exact ihA j hj'
        · rw [hj']; exact not_lt.mp hk
      · rcases ihC with ⟨hn, hb, hall⟩ | ⟨i, hu, hik, hfi, hlt, hleast⟩
        · refine Or.inl ⟨hn, hb, ?_⟩
          intro j hj
          rcases Nat.lt_succ_iff_lt_or_eq.mp hj with hj' | hj'
          · exact hall j hj'
          · rw [hj']; rw [hb] at hk; exact not_lt.mp hk
        · exact Or.inr ⟨i, hu, by omega, hfi, hlt, hleast⟩

/-! ## C2: the loop returns the minimum slot error and the first argmin -/

/-- C2 (amended): provided some slot error is below the `FLT_MAX` sentinel
the loop starts from (otherwise no update fires and the sentinel itself is
returned), `SinglePaletteFit::ComputeEndPoints` returns the minimum over
the `kn` codebook slots of the metric-weighted squared LUT-converted
channel error, and on return `m_index` is the smallest slot attaining that
minimum while `m_start`/`m_end` hold `q.LookUpLattice` of that slot's
per-channel start/end bytes. -/
theorem spf_computes_min_slot (fit : SinglePaletteFit) (kn : ℕ) (values metric : Vec4)
    (q : vQuantizer) (lookups : Fin 4 → SPTable) (cmask : ℕ) (st : SPFState)
    (hex : ∃ i, i < kn ∧
      slotError (ComputeGammaLUT false) metric lookups cmask (spEntry values) i < FLT_MAX) :
    (∀ j, j < kn →
      (fit.ComputeEndPoints kn values metric q lookups cmask st).1 ≤
        slotError (ComputeGammaLUT false) metric lookups cmask (spEntry values) j) ∧
    (fit.ComputeEndPoints kn values metric q lookups cmask st).2.m_index < kn ∧
    slotError (ComputeGammaLUT false) metric lookups cmask (spEntry values)
        (fit.ComputeEndPoints kn values metric q lookups cmask st).2.m_index =
      (fit.ComputeEndPoints kn values metric q lookups cmask st).1 ∧
    (∀ j, j < (fit.ComputeEndPoints kn values metric q lookups cmask st).2.m_index →
      (fit.ComputeEndPoints kn values metric q lookups cmask st).1 <
        slotError (ComputeGammaLUT false) metric lookups cmask (spEntry values) j) ∧
    (fit.ComputeEndPoints kn values metric q lookups cmask st).2.m_start =
      q.LookUpLattice
        (slotStartByte q lookups cmask (spEntry values)
          (fit.ComputeEndPoints kn values metric q lookups cmask st).2.m_index 0)
        (slotStartByte q lookups cmask (spEntry values)
          (fit.ComputeEndPoints kn values metric q lookups cmask st).2.m_index 1)
        (slotStartByte q lookups cmask (spEntry values)
          (fit.ComputeEndPoints kn values metric q lookups cmask st).2.m_index 2)
        (slotStartByte q lookups cmask (spEntry values)
          (fit.ComputeEndPoints kn values metric q lookups cmask st).2.m_index 3) ∧
    (fit.ComputeEndPoints kn values metric q lookups cmask st).2.m_end =
      q.LookUpLattice
        (slotEndByte q lookups cmask (spEntry values)
          (fit.ComputeEndPoints kn values metric q lookups cmask st).2.m_index 0)
        (slotEndByte q lookups cmask (spEntry values)
          (fit.ComputeEndPoints kn values metric q lookups cmask st).2.m_index 1)
        (slotEndByte q lookups cmask (spEntry values)
          (fit.ComputeEndPoints kn values metric q lookups cmask st).2.m_index 2)
        (slotEndByte q lookups cmask (spEntry values)
          (fit.ComputeEndPoints kn values metric q lookups cmask st).2.m_index 3) := by
  obtain ⟨i0, hi0, hlt0⟩ := hex
  obtain ⟨hA, hB, hC⟩ :=
    runFold_range_spec (slotError (ComputeGammaLUT false) metric lookups cmask (spEntry values))
      FLT_MAX kn
  rcases hC with ⟨_, _, hall⟩ | ⟨i, hu, hik, hfi, hltb, hleast⟩
  · exact absurd (hall i0 hi0) (not_le.mpr hlt0)
  · have hres : fit.ComputeEndPoints kn values metric q lookups cmask st =
        (runBest (slotError (ComputeGammaLUT false) metric lookups cmask (spEntry values))
            (List.range kn) FLT_MAX,
         updState q lookups cmask (spEntry values) i { st with m_entry := spEntry values }) := by
      rw [SinglePaletteFit.ComputeEndPoints, spComputeEndPointsLUT]
      rw [spLoop_spec, hu]
    rw [hres]
    exact ⟨fun j hj => hA j hj, hik, hfi, fun j hj => hleast j hj, rfl, rfl⟩

/-- Witness for C2 at a concrete input (all channels masked out, so every
slot error is 0 and well below `FLT_MAX`). -/
theorem spf_computes_min_slot_witness :
    (∃ i, i < 2 ∧
      slotError (ComputeGammaLUT false) ⟨1, 1, 1, 1⟩ (fun _ => cxTable 0) 0
        (spEntry ⟨0, 0, 0, 0⟩) i < FLT_MAX) ∧
    ((∀ j, j < 2 →
      (SinglePaletteFit.ComputeEndPoints ⟨0⟩ 2 ⟨0, 0, 0, 0⟩ ⟨1, 1, 1, 1⟩ cxQuant
          (fun _ => cxTable 0) 0 (cxState 0)).1 ≤
        slotError (ComputeGammaLUT false) ⟨1, 1, 1, 1⟩ (fun _ => cxTable 0) 0
          (spEntry ⟨0, 0, 0, 0⟩) j) ∧
    (SinglePaletteFit.ComputeEndPoints ⟨0⟩ 2 ⟨0, 0, 0, 0⟩ ⟨1, 1, 1, 1⟩ cxQuant
        (fun _ => cxTable 0) 0 (cxState 0)).2.m_index < 2 ∧
    slotError (ComputeGammaLUT false) ⟨1, 1, 1, 1⟩ (fun _ => cxTable 0) 0
        (spEntry ⟨0, 0, 0, 0⟩)
        (SinglePaletteFit.ComputeEndPoints ⟨0⟩ 2 ⟨0, 0, 0, 0⟩ ⟨1, 1, 1, 1⟩ cxQuant
          (fun _ => cxTable 0) 0 (cxState 0)).2.m_index =
      (SinglePaletteFit.ComputeEndPoints ⟨0⟩ 2 ⟨0, 0, 0, 0⟩ ⟨1, 1, 1, 1⟩ cxQuant
          (fun _ => cxTable 0) 0 (cxState 0)).1 ∧
    (∀ j, j < (SinglePaletteFit.ComputeEndPoints ⟨0⟩ 2 ⟨0, 0, 0, 0⟩ ⟨1, 1, 1, 1⟩ cxQuant
          (fun _ => cxTable 0) 0 (cxState 0)).2.m_index →
      (SinglePaletteFit.ComputeEndPoints ⟨0⟩ 2 ⟨0, 0, 0, 0⟩ ⟨1, 1, 1, 1⟩ cxQuant
          (fun _ => cxTable 0) 0 (cxState 0)).1 <
        slotError (ComputeGammaLUT false) ⟨1, 1, 1, 1⟩ (fun _ => cxTable 0) 0
          (spEntry ⟨0, 0, 0, 0⟩) j) ∧
    (SinglePaletteFit.ComputeEndPoints ⟨0⟩ 2 ⟨0, 0, 0, 0⟩ ⟨1, 1, 1, 1⟩ cxQuant
        (fun _ => cxTable 0) 0 (cxState 0)).2.m_start =
      cxQuant.LookUpLattice
        (slotStartByte cxQuant (fun _ => cxTable 0) 0 (spEntry ⟨0, 0, 0, 0⟩)
          (SinglePaletteFit.ComputeEndPoints ⟨0⟩ 2 ⟨0, 0, 0, 0⟩ ⟨1, 1, 1, 1⟩ cxQuant
            (fun _ => cxTable 0) 0 (cxState 0)).2.m_index 0)
        (slotStartByte cxQuant (fun _ => cxTable 0) 0 (spEntry ⟨0, 0, 0, 0⟩)
          (SinglePaletteFit.ComputeEndPoints ⟨0⟩ 2 ⟨0, 0, 0, 0⟩ ⟨1, 1, 1, 1⟩ cxQuant
            (fun _ => cxTable 0) 0 (cxState 0)).2.m_index 1)
        (slotStartByte cxQuant (fun _ => cxTable 0) 0 (spEntry ⟨0, 0, 0, 0⟩)
          (SinglePaletteFit.ComputeEndPoints ⟨0⟩ 2 ⟨0, 0, 0, 0⟩ ⟨1, 1, 1, 1⟩ cxQuant
            (fun _ => cxTable 0) 0 (cxState 0)).2.m_index 2)
        (slotStartByte cxQuant (fun _ => cxTable 0) 0 (spEntry ⟨0, 0, 0, 0⟩)
          (SinglePaletteFit.ComputeEndPoints ⟨0⟩ 2 ⟨0, 0, 0, 0⟩ ⟨1, 1, 1, 1⟩ cxQuant
            (fun _ => cxTable 0) 0 (cxState 0)).2.m_index 3) ∧
    (SinglePaletteFit.ComputeEndPoints ⟨0⟩ 2 ⟨0, 0, 0, 0⟩ ⟨1, 1, 1, 1⟩ cxQuant
        (fun _ => cxTable 0) 0 (cxState 0)).2.m_end =
      cxQuant.LookUpLattice
        (slotEndByte cxQuant (fun _ => cxTable 0) 0 (spEntry ⟨0, 0, 0, 0⟩)
          (SinglePaletteFit.ComputeEndPoints ⟨0⟩ 2 ⟨0, 0, 0, 0⟩ ⟨1, 1, 1, 1⟩ cxQuant
            (fun _ => cxTable 0) 0 (cxState 0)).2.m_index 0)
        (slotEndByte cxQuant (fun _ => cxTable 0) 0 (spEntry ⟨0, 0, 0, 0⟩)
          (SinglePaletteFit.ComputeEndPoints ⟨0⟩ 2 ⟨0, 0, 0, 0⟩ ⟨1, 1, 1, 1⟩ cxQuant
            (fun _ => cxTable 0) 0 (cxState 0)).2.m_index 1)
        (slotEndByte cxQuant (fun _ => cxTable 0) 0 (spEntry ⟨0, 0, 0, 0⟩)
          (SinglePaletteFit.ComputeEndPoints ⟨0⟩ 2 ⟨0, 0, 0, 0⟩ ⟨1, 1, 1, 1⟩ cxQuant
            (fun _ => cxTable 0) 0 (cxState 0)).2.m_index 2)
        (slotEndByte cxQuant (fun _ => cxTable 0) 0 (spEntry ⟨0, 0, 0, 0⟩)
          (SinglePaletteFit.ComputeEndPoints ⟨0⟩ 2 ⟨0, 0, 0, 0⟩ ⟨1, 1, 1, 1⟩ cxQuant
            (fun _ => cxTable 0) 0 (cxState 0)).2.m_index 3)) := by
  have h0 : slotError (ComputeGammaLUT false) ⟨1, 1, 1, 1⟩ (fun _ => cxTable 0) 0
      (spEntry ⟨0, 0, 0, 0⟩) 0 = 0 := by
    simp [slotError, spCError, spSource, LengthSquared, vmul, Nat.zero_testBit]
  have hex : ∃ i, i < 2 ∧
      slotError (ComputeGammaLUT false) ⟨1, 1, 1, 1⟩ (fun _ => cxTable 0) 0
        (spEntry ⟨0, 0, 0, 0⟩) i < FLT_MAX := by
    refine ⟨0, by norm_num, ?_⟩
    rw [h0, FLT_MAX]
    norm_num
  exact ⟨hex, spf_computes_min_slot ⟨0⟩ 2 ⟨0, 0, 0, 0⟩ ⟨1, 1, 1, 1⟩ cxQuant
    (fun _ => cxTable 0) 0 (cxState 0) hex⟩

/-! ## C9: the result does not depend on the incoming state or flags -/

/-- C9 (amended): provided some slot error is below `FLT_MAX` (so the
best-slot update fires at least once), `SinglePaletteFit::ComputeEndPoints`
is a pure function of the palette point values, metric, quantizer,
lookup-table contents and channel mask: the returned score and the
resulting `m_start`, `m_end`, `m_index` are identical for any two prior
states and any two stored flag words. -/
theorem spf_deterministic (fit fit' : SinglePaletteFit) (kn : ℕ) (values metric : Vec4)
    (q : vQuantizer) (lookups : Fin 4 → SPTable) (cmask : ℕ) (st st' : SPFState)
    (hex : ∃ i, i < kn ∧
      slotError (ComputeGammaLUT false) metric lookups cmask (spEntry values) i < FLT_MAX) :
    fit.ComputeEndPoints kn values metric q lookups cmask st =
      fit'.ComputeEndPoints kn values metric q lookups cmask st' := by
  obtain ⟨i0, hi0, hlt0⟩ := hex
  obtain ⟨hA, hB, hC⟩ :=
    runFold_range_spec (slotError (ComputeGammaLUT false) metric lookups cmask (spEntry values))
      FLT_MAX kn
  rcases hC with ⟨_, _, hall⟩ | ⟨i, hu, hik, hfi, hltb, hleast⟩
  · exact absurd (hall i0 hi0) (not_le.mpr hlt0)
  · rw [SinglePaletteFit.ComputeEndPoints, spComputeEndPointsLUT,
      SinglePaletteFit.ComputeEndPoints, spComputeEndPointsLUT]
    rw [spLoop_spec, spLoop_spec, hu]
    rfl

/-- Witness for C9 at a concrete input. -/
theorem spf_deterministic_witness :
    (∃ i, i < 2 ∧
      slotError (ComputeGammaLUT false) ⟨1, 1, 1, 1⟩ (fun _ => cxTable 0) 0
        (spEntry ⟨0, 0, 0, 0⟩) i < FLT_MAX) ∧
    SinglePaletteFit.ComputeEndPoints ⟨0⟩ 2 ⟨0, 0, 0, 0⟩ ⟨1, 1, 1, 1⟩ cxQuant
        (fun _ => cxTable 0) 0 (cxState 3) =
      SinglePaletteFit.ComputeEndPoints ⟨77⟩ 2 ⟨0, 0, 0, 0⟩ ⟨1, 1, 1, 1⟩ cxQuant
        (fun _ => cxTable 0) 0 (cxState 4) := by
  have h0 : slotError (ComputeGammaLUT false) ⟨1, 1, 1, 1⟩ (fun _ => cxTable 0) 0
      (spEntry ⟨0, 0, 0, 0⟩) 0 = 0 := by
    simp [slotError, spCError, spSource, LengthSquared, vmul, Nat.zero_testBit]
  have hex : ∃ i, i < 2 ∧
      slotError (ComputeGammaLUT false) ⟨1, 1, 1, 1⟩ (fun _ => cxTable 0) 0
        (spEntry ⟨0, 0, 0, 0⟩) i < FLT_MAX := by
    refine ⟨0, by norm_num, ?_⟩
    rw [h0, FLT_MAX]
    norm_num
  exact ⟨hex, spf_deterministic ⟨0⟩ ⟨77⟩ 2 ⟨0, 0, 0, 0⟩ ⟨1, 1, 1, 1⟩ cxQuant
    (fun _ => cxTable 0) 0 (cxState 3) (cxState 4) hex⟩

/-! ## C7: disabled channels are inert and get fixed default bytes -/

lemma spSource_congr (lookups lookups' : Fin 4 → SPTable) (cmask : ℕ) (entry : Fin 4 → ℕ)
    (h : ∀ c' : Fin 4, cmask.testBit c'.val → lookups' c' = lookups c') (i : ℕ) (c : Fin 4) :
    spSource lookups' cmask entry i c = spSource lookups cmask entry i c := by
  unfold spSource
  by_cases ht : cmask.testBit c.val
  · rw [if_pos ht, if_pos ht, h c ht]
  · rw [if_neg ht, if_neg ht]

lemma slotError_congr (eLUT : ℕ → ℚ) (metric : Vec4) (lookups lookups' : Fin 4 → SPTable)
    (cmask : ℕ) (entry : Fin 4 → ℕ)
    (h : ∀ c' : Fin 4, cmask.testBit c'.val → lookups' c' = lookups c') (i : ℕ) :
    slotError eLUT metric lookups' cmask entry i = slotError eLUT metric lookups cmask entry i := by
  unfold slotError spCError
  rw [spSource_congr lookups lookups' cmask entry h i 0,
    spSource_congr lookups lookups' cmask entry h i 1,
    spSource_congr lookups lookups' cmask entry h i 2,
    spSource_congr lookups lookups' cmask entry h i 3]

lemma updState_congr (q : vQuantizer) (lookups lookups' : Fin 4 → SPTable)
    (cmask : ℕ) (entry : Fin 4 → ℕ)
    (h : ∀ c' : Fin 4, cmask.testBit c'.val → lookups' c' = lookups c') (i : ℕ) (st : SPFState) :
    updState q lookups' cmask entry i st = updState q lookups cmask entry i st := by
  unfold updState slotStartByte slotEndByte
  rw [spSource_congr lookups lookups' cmask entry h i 0,
    spSource_congr lookups lookups' cmask entry h i 1,
    spSource_congr lookups lookups' cmask entry h i 2,
    spSource_congr lookups lookups' cmask entry h i 3]

lemma spLoop_congr (eLUT : ℕ → ℚ) (metric : Vec4) (q : vQuantizer)
    (lookups lookups' : Fin 4 → SPTable) (cmask : ℕ) (entry : Fin 4 → ℕ)
    (h : ∀ c' : Fin 4, cmask.testBit c'.val → lookups' c' = lookups c') (l : List ℕ) :
    ∀ (b : ℚ) (st : SPFState),
      spLoop eLUT metric q lookups' cmask entry l b st =
        spLoop eLUT metric q lookups cmask entry l b st := by
  induction l with
  | nil => intro b st; rfl
  | cons i r ih =>
    intro b st
    rw [spLoop, spLoop, slotError_congr eLUT metric lookups lookups' cmask entry h i,
      updState_congr q lookups lookups' cmask entry h i st]
    by_cases hlt : slotError eLUT metric lookups cmask entry i < b
    · rw [if_pos hlt, if_pos hlt]
      by_cases hz : ¬ slotError eLUT metric lookups cmask entry i > 0
      · rw [if_pos hz, if_pos hz]
      · rw [if_neg hz, if_neg hz, ih]
    · rw [if_neg hlt, if_neg hlt, ih]

/-- C7: a channel whose bit in `cmask` is clear contributes exactly zero
to every slot error (its `cerror` lane keeps the zero initializer), its
lookup table is never read (replacing it leaves the whole result
unchanged), and the endpoint bytes handed to `q.LookUpLattice` for it are
the fixed defaults: `0x00` for channels 0-2 and `q.gridinv.A() - 1` for
channel 3. -/
theorem spf_masked_channel_inert (fit : SinglePaletteFit) (kn : ℕ) (values metric : Vec4)
    (q : vQuantizer) (lookups : Fin 4 → SPTable) (cmask : ℕ) (st : SPFState) (c : Fin 4)
    (hc : cmask.testBit c.val = false) :
    (∀ lookups' : Fin 4 → SPTable, (∀ c' : Fin 4, c' ≠ c → lookups' c' = lookups c') →
      fit.ComputeEndPoints kn values metric q lookups' cmask st =
        fit.ComputeEndPoints kn values metric q lookups cmask st) ∧
    (∀ i, spCError (ComputeGammaLUT false) lookups cmask (spEntry values) i c = 0) ∧
    (∀ i, slotStartByte q lookups cmask (spEntry values) i c =
      if c = 3 then q.gridinvA - 1 else 0x00) ∧
    (∀ i, slotEndByte q lookups cmask (spEntry values) i c =
      if c = 3 then q.gridinvA - 1 else 0x00) := by
  have hnone : ∀ (lk : Fin 4 → SPTable) (entry : Fin 4 → ℕ) (i : ℕ),
      spSource lk cmask entry i c = none := by
    intro lk entry i
    unfold spSource
    rw [hc]
    simp
  refine ⟨?_, ?_, ?_, ?_⟩
  · intro lookups' hl
    have h : ∀ c' : Fin 4, cmask.testBit c'.val → lookups' c' = lookups c' := by
      intro c' htb
      rcases eq_or_ne c' c with rfl | hne
      · rw [hc] at htb; exact absurd htb (by simp)
      · exact hl c' hne
    rw [SinglePaletteFit.ComputeEndPoints, spComputeEndPointsLUT,
      SinglePaletteFit.ComputeEndPoints, spComputeEndPointsLUT]
    exact spLoop_congr _ _ q lookups lookups' cmask _ h _ _ _
  · intro i
    unfold spCError
    rw [hnone]
  · intro i
    unfold slotStartByte
    rw [hnone]
  · intro i
    unfold slotEndByte
    rw [hnone]

/-- Witness for C7 at a concrete input: alpha channel masked out. -/
theorem spf_masked_channel_inert_witness :
    Nat.testBit 7 (3 : Fin 4).val = false ∧
    ((∀ lookups' : Fin 4 → SPTable,
        (∀ c' : Fin 4, c' ≠ (3 : Fin 4) → lookups' c' = (fun _ => cxTable 0) c') →
      SinglePaletteFit.ComputeEndPoints ⟨0⟩ 2 ⟨0, 0, 0, 0⟩ ⟨1, 1, 1, 1⟩ cxQuant lookups' 7
          (cxState 0) =
        SinglePaletteFit.ComputeEndPoints ⟨0⟩ 2 ⟨0, 0, 0, 0⟩ ⟨1, 1, 1, 1⟩ cxQuant
          (fun _ => cxTable 0) 7 (cxState 0)) ∧
    (∀ i, spCError (ComputeGammaLUT false) (fun _ => cxTable 0) 7 (spEntry ⟨0, 0, 0, 0⟩) i
        (3 : Fin 4) = 0) ∧
    (∀ i, slotStartByte cxQuant (fun _ => cxTable 0) 7 (spEntry ⟨0, 0, 0, 0⟩) i (3 : Fin 4) =
      if (3 : Fin 4) = 3 then cxQuant.gridinvA - 1 else 0x00) ∧
    (∀ i, slotEndByte cxQuant (fun _ => cxTable 0) 7 (spEntry ⟨0, 0, 0, 0⟩) i (3 : Fin 4) =
      if (3 : Fin 4) = 3 then cxQuant.gridinvA - 1 else 0x00)) :=
  ⟨by decide, spf_masked_channel_inert ⟨0⟩ 2 ⟨0, 0, 0, 0⟩ ⟨1, 1, 1, 1⟩ cxQuant
    (fun _ => cxTable 0) 7 (cxState 0) 3 (by decide)⟩

/-! ## Concrete evaluation helpers -/

lemma spEntry_zero : spEntry ⟨0, 0, 0, 0⟩ = fun _ => 0 := by
  funext c
  have hl : Vec4.lane ⟨0, 0, 0, 0⟩ c = 0 := by fin_cases c <;> rfl
  show packByte (Vec4.lane ⟨0, 0, 0, 0⟩ c * 255) = 0
  rw [hl, zero_mul]
  unfold packByte truncQ
  rw [zero_add, if_neg (by norm_num)]
  rw [show ⌊(1 / 2 : ℚ)⌋ = 0 by rw [Int.floor_eq_zero_iff]; constructor <;> norm_num]
  rfl

lemma spLoop_pair_const (eLUT : ℕ → ℚ) (metric : Vec4) (q : vQuantizer)
    (lookups : Fin 4 → SPTable) (cmask : ℕ) (entry : Fin 4 → ℕ) (st : SPFState) (e : ℚ)
    (h0 : slotError eLUT metric lookups cmask entry 0 = e)
    (h1 : slotError eLUT metric lookups cmask entry 1 = e)
    (hpos : 0 < e) (hmax : e < FLT_MAX) :
    (spLoop eLUT metric q lookups cmask entry [0, 1] FLT_MAX st).1 = e := by
  rw [spLoop]
  simp only [h0]
  rw [if_pos hmax, if_neg (not_not_intro hpos)]
  rw [spLoop]
  simp only [h1]
  rw [if_neg (lt_irrefl e)]
  rw [spLoop]

lemma spLoop_pair_stuck (eLUT : ℕ → ℚ) (metric : Vec4) (q : vQuantizer)
    (lookups : Fin 4 → SPTable) (cmask : ℕ) (entry : Fin 4 → ℕ) (st : SPFState) (e : ℚ)
    (h0 : slotError eLUT metric lookups cmask entry 0 = e)
    (h1 : slotError eLUT metric lookups cmask entry 1 = e)
    (hge : ¬ e < FLT_MAX) :
    spLoop eLUT metric q lookups cmask entry [0, 1] FLT_MAX st = (FLT_MAX, st) := by
  rw [spLoop]
  simp only [h0]
  rw [if_neg hge]
  rw [spLoop]
  simp only [h1]
  rw [if_neg hge]
  rw [spLoop]

lemma cx_slot_error (eLUT : ℕ → ℚ) (metric : Vec4) (eb : ℕ) (e : ℚ) (he : eLUT eb = e)
    (i : ℕ) :
    slotError eLUT metric (fun _ => cxTable eb) 15 (fun _ => 0) i =
      metric.x * e * (metric.x * e) + metric.y * e * (metric.y * e) +
      metric.z * e * (metric.z * e) + metric.w * e * (metric.w * e) := by
  have hc : ∀ c : Fin 4, spCError eLUT (fun _ => cxTable eb) 15 (fun _ => 0) i c = e := by
    intro c
    unfold spCError spSource
    have ht : Nat.testBit 15 c.val = true := by fin_cases c <;> decide
    rw [ht]
    show eLUT (cxTable eb 0 i).error = e
    rw [show (cxTable eb 0 i).error = eb from rfl, he]
  unfold slotError
  rw [hc 0, hc 1, hc 2, hc 3]
  rfl

lemma cx_slot_error_one (eLUT : ℕ → ℚ) (eb : ℕ) (e : ℚ) (he : eLUT eb = e) (i : ℕ) :
    slotError eLUT ⟨1, 1, 1, 1⟩ (fun _ => cxTable eb) 1 (fun _ => 0) i = e * e := by
  have hc0 : spCError eLUT (fun _ => cxTable eb) 1 (fun _ => 0) i 0 = e := by
    unfold spCError spSource
    rw [show Nat.testBit 1 (0 : Fin 4).val = true by decide]
    show eLUT (cxTable eb 0 i).error = e
    rw [show (cxTable eb 0 i).error = eb from rfl, he]
  have hcn : ∀ c : Fin 4, c ≠ 0 → spCError eLUT (fun _ => cxTable eb) 1 (fun _ => 0) i c = 0 := by
    intro c hcne
    unfold spCError spSource
    have ht : Nat.testBit 1 c.val = false := by fin_cases c <;> first | (exact absurd rfl hcne) | decide
    rw [ht]
    rfl
  unfold slotError
  rw [hc0, hcn 1 (by decide), hcn 2 (by decide), hcn 3 (by decide)]
  show LengthSquared (vmul ⟨1, 1, 1, 1⟩ ⟨e, 0, 0, 0⟩) = e * e
  unfold LengthSquared vmul
  ring

lemma cx_huge_result (st : SPFState) :
    SinglePaletteFit.ComputeEndPoints ⟨0⟩ 2 ⟨0, 0, 0, 0⟩ cxHugeMetric cxQuant
        (fun _ => cxTable 255) 15 st =
      (FLT_MAX, { st with m_entry := fun _ => 0 }) := by
  have h255 : ComputeGammaLUT false 255 = 1 := by
    have h : ComputeGammaLUT false 255 = (1.0 : ℚ) := rfl
    rw [h]; norm_num
  have herr : ∀ i, slotError (ComputeGammaLUT false) cxHugeMetric (fun _ => cxTable 255) 15
      (fun _ => 0) i = 2 ^ 142 := by
    intro i
    rw [cx_slot_error (ComputeGammaLUT false) cxHugeMetric 255 1 h255 i]
    show (2 ^ 70 : ℚ) * 1 * (2 ^ 70 * 1) + 2 ^ 70 * 1 * (2 ^ 70 * 1) +
      2 ^ 70 * 1 * (2 ^ 70 * 1) + 2 ^ 70 * 1 * (2 ^ 70 * 1) = 2 ^ 142
    norm_num
  rw [SinglePaletteFit.ComputeEndPoints, spComputeEndPointsLUT]
  rw [spEntry_zero]
  rw [show List.range 2 = [0, 1] from rfl]
  exact spLoop_pair_stuck _ _ _ _ _ _ _ _ (herr 0) (herr 1)
    (not_lt.mpr (by rw [FLT_MAX]; norm_num))

/-! ## C2 counterexample -/

/-- C2 as stated is false: with a metric large enough that every slot
error exceeds `FLT_MAX`, no update fires, the function returns the
`FLT_MAX` sentinel (not the minimum slot error, which is `2^142`), and
`m_index` keeps its stale prior value 5, which is no slot at all. -/
theorem spf_computes_min_slot_cex :
    (SinglePaletteFit.ComputeEndPoints ⟨0⟩ 2 ⟨0, 0, 0, 0⟩ cxHugeMetric cxQuant
        (fun _ => cxTable 255) 15 (cxState 5)).1 = FLT_MAX ∧
    (∀ j, j < 2 → slotError (ComputeGammaLUT false) cxHugeMetric (fun _ => cxTable 255) 15
      (spEntry ⟨0, 0, 0, 0⟩) j = 2 ^ 142) ∧
    FLT_MAX < 2 ^ 142 ∧
    (SinglePaletteFit.ComputeEndPoints ⟨0⟩ 2 ⟨0, 0, 0, 0⟩ cxHugeMetric cxQuant
        (fun _ => cxTable 255) 15 (cxState 5)).2.m_index = 5 := by
  have h255 : ComputeGammaLUT false 255 = 1 := by
    have h : ComputeGammaLUT false 255 = (1.0 : ℚ) := rfl
    rw [h]; norm_num
  refine ⟨by rw [cx_huge_result], ?_, by rw [FLT_MAX]; norm_num, by rw [cx_huge_result]; rfl⟩

  intro j _
  rw [spEntry_zero, cx_slot_error (ComputeGammaLUT false) cxHugeMetric 255 1 h255 j]
  show (2 ^ 70 : ℚ) * 1 * (2 ^ 70 * 1) + 2 ^ 70 * 1 * (2 ^ 70 * 1) +
    2 ^ 70 * 1 * (2 ^ 70 * 1) + 2 ^ 70 * 1 * (2 ^ 70 * 1) = 2 ^ 142
  norm_num

/-! ## C9 counterexample -/

/-- C9 as stated is false: with every slot error above `FLT_MAX` no update
fires and `m_index` keeps its prior value, so two invocations on equal
palette values, metric, quantizer, tables and mask but different prior
states return different `m_index`. -/
theorem spf_deterministic_cex :
    (SinglePaletteFit.ComputeEndPoints ⟨0⟩ 2 ⟨0, 0, 0, 0⟩ cxHugeMetric cxQuant
        (fun _ => cxTable 255) 15 (cxState 5)).2.m_index = 5 ∧
    (SinglePaletteFit.ComputeEndPoints ⟨0⟩ 2 ⟨0, 0, 0, 0⟩ cxHugeMetric cxQuant
        (fun _ => cxTable 255) 15 (cxState 7)).2.m_index = 7 ∧
    (SinglePaletteFit.ComputeEndPoints ⟨0⟩ 2 ⟨0, 0, 0, 0⟩ cxHugeMetric cxQuant
        (fun _ => cxTable 255) 15 (cxState 5)).2.m_index ≠
      (SinglePaletteFit.ComputeEndPoints ⟨0⟩ 2 ⟨0, 0, 0, 0⟩ cxHugeMetric cxQuant
        (fun _ => cxTable 255) 15 (cxState 7)).2.m_index := by
  rw [cx_huge_result, cx_huge_result]
  exact ⟨rfl, rfl, by decide⟩

/-! ## C1: the error LUT is always the linear one -/

/-- C1 (amended): in every overload of `SinglePaletteFit::ComputeEndPoints`
the error LUT is the hard-coded `ComputeGammaLUT(false)` (the linear
table), regardless of the flag word the constructor stored — the
`SRGB_METRIC` flag is never consulted here — and the linear table genuinely
differs from `ComputeGammaLUT(true)`. -/
theorem spf_error_lut_always_linear (fit : SinglePaletteFit) (kn : ℕ)
    (values metric : Vec4) (q : vQuantizer) (lookups : Fin 4 → SPTable)
    (cmask : ℕ) (st : SPFState) :
    fit.ComputeEndPoints kn values metric q lookups cmask st =
      spComputeEndPointsLUT (ComputeGammaLUT false) kn values metric q lookups cmask st ∧
    (∀ fit' : SinglePaletteFit,
      fit'.ComputeEndPoints kn values metric q lookups cmask st =
        fit.ComputeEndPoints kn values metric q lookups cmask st) ∧
    ComputeGammaLUT false 2 ≠ ComputeGammaLUT true 2 := by
  refine ⟨rfl, fun _ => rfl, ?_⟩
  rw [show ComputeGammaLUT false 2 = (0.00784314 : ℚ) from rfl,
    show ComputeGammaLUT true 2 = (0.00114819 : ℚ) from rfl]
  norm_num

/-- C1 as stated is false: on a concrete input (error byte 2, red channel
only, unit metric, any flag word) the fitter's score is the linear-LUT
value `0.00784314^2`, not the sRGB-LUT value `0.00114819^2` the claim
requires under `SRGB_METRIC`. -/
theorem spf_srgb_lut_cex :
    (SinglePaletteFit.ComputeEndPoints ⟨1⟩ 2 ⟨0, 0, 0, 0⟩ ⟨1, 1, 1, 1⟩ cxQuant
        (fun _ => cxTable 2) 1 (cxState 0)).1 ≠
      (spComputeEndPointsLUT (ComputeGammaLUT true) 2 ⟨0, 0, 0, 0⟩ ⟨1, 1, 1, 1⟩ cxQuant
        (fun _ => cxTable 2) 1 (cxState 0)).1 := by
  have hlin : ComputeGammaLUT false 2 = (0.00784314 : ℚ) := rfl
  have hsrgb : ComputeGammaLUT true 2 = (0.00114819 : ℚ) := rfl
  have hL : (SinglePaletteFit.ComputeEndPoints ⟨1⟩ 2 ⟨0, 0, 0, 0⟩ ⟨1, 1, 1, 1⟩ cxQuant
      (fun _ => cxTable 2) 1 (cxState 0)).1 = (0.00784314 : ℚ) * 0.00784314 := by
    rw [SinglePaletteFit.ComputeEndPoints, spComputeEndPointsLUT, spEntry_zero]
    rw [show List.range 2 = [0, 1] from rfl]
    exact spLoop_pair_const _ _ _ _ _ _ _ _
      (cx_slot_error_one _ 2 _ hlin 0) (cx_slot_error_one _ 2 _ hlin 1)
      (by norm_num) (by rw [FLT_MAX]; norm_num)
  have hS : (spComputeEndPointsLUT (ComputeGammaLUT true) 2 ⟨0, 0, 0, 0⟩ ⟨1, 1, 1, 1⟩ cxQuant
      (fun _ => cxTable 2) 1 (cxState 0)).1 = (0.00114819 : ℚ) * 0.00114819 := by
    rw [spComputeEndPointsLUT, spEntry_zero]
    rw [show List.range 2 = [0, 1] from rfl]
    exact spLoop_pair_const _ _ _ _ _ _ _ _
      (cx_slot_error_one _ 2 _ hsrgb 0) (cx_slot_error_one _ 2 _ hsrgb 1)
      (by norm_num) (by rw [FLT_MAX]; norm_num)
  rw [hL, hS]
  norm_num

/-! ## C4: the dispatcher under well-formed format parameters -/

lemma spRun_not_aborted (kn : ℕ) (values metric : Vec4) (q : vQuantizer)
    (lookups : Fin 4 → Option SPTable) (cmask : ℕ) (st : SPFState) :
    spRunLookups kn values metric q lookups cmask st ≠ .error .aborted := by
  unfold spRunLookups
  split_ifs <;> simp

lemma spRun_ok_of_available (kn : ℕ) (values metric : Vec4) (q : vQuantizer)
    (lookups : Fin 4 → Option SPTable) (cmask : ℕ) (st : SPFState)
    (h : maskedAvailable lookups cmask = true) :
    ∃ r, spRunLookups kn values metric q lookups cmask st = .ok r := by
  unfold spRunLookups
  rw [h]
  exact ⟨_, rfl⟩

lemma available_someAl (cl a : SPTable) (cmask : ℕ) :
    maskedAvailable (spChannelTables cl (some a)) cmask = true := by
  unfold maskedAvailable spChannelTables
  rw [if_neg (by decide), if_neg (by decide), if_neg (by decide), if_pos (by decide)]
  simp

lemma available_noneAl (cl : SPTable) (cmask : ℕ) (h : cmask.testBit 3 = false) :
    maskedAvailable (spChannelTables cl none) cmask = true := by
  unfold maskedAvailable spChannelTables
  rw [if_neg (by decide), if_neg (by decide), if_neg (by decide), if_pos (by decide)]
  simp [h]

/-- C4 (amended): for every `(ib, cb, ab)` in the enumerated support table
the dispatching `SinglePaletteFit::ComputeEndPoints` never reaches an
`abort()` branch; and provided the channel mask excludes the alpha channel
whenever `ab = 0` (the alpha table pointer is NULL then, and an enabled
alpha channel would dereference it), it returns a score. -/
theorem spf_dispatch_no_abort (T : SPTables) (fit : SinglePaletteFit)
    (values metric : Vec4) (q : vQuantizer) (sb cmask : ℕ) (st : SPFState)
    (ib cb ab : ℕ) (h : wellFormedFormat ib cb ab) :
    spDispatch T fit values metric q cb ab sb ib cmask st ≠ .error .aborted ∧
    ((ab = 0 → cmask.testBit 3 = false) →
      ∃ r, spDispatch T fit values metric q cb ab sb ib cmask st = .ok r) := by
  rcases h with ⟨rfl, (rfl | rfl | rfl | rfl), (rfl | rfl | rfl)⟩ |
    ⟨rfl, (rfl | rfl), (rfl | rfl)⟩ | ⟨rfl, rfl, rfl⟩ <;>
    first
      | exact ⟨spRun_not_aborted _ _ _ _ _ _ _, fun hm =>
          spRun_ok_of_available _ _ _ _ _ _ _ (available_noneAl _ _ (hm rfl))⟩
      | exact ⟨spRun_not_aborted _ _ _ _ _ _ _, fun _ =>
          spRun_ok_of_available _ _ _ _ _ _ _ (available_someAl _ _ _)⟩

/-- Witness for C4 at a concrete input. -/
theorem spf_dispatch_no_abort_witness :
    wellFormedFormat 2 5 6 ∧
    (spDispatch cxTables ⟨0⟩ ⟨0, 0, 0, 0⟩ ⟨1, 1, 1, 1⟩ cxQuant 5 6 0 2 15 (cxState 0) ≠
      .error .aborted ∧
    (((6 : ℕ) = 0 → Nat.testBit 15 3 = false) →
      ∃ r, spDispatch cxTables ⟨0⟩ ⟨0, 0, 0, 0⟩ ⟨1, 1, 1, 1⟩ cxQuant 5 6 0 2 15 (cxState 0) =
        .ok r)) :=
  ⟨Or.inl ⟨rfl, Or.inl rfl, Or.inr (Or.inl rfl)⟩,
   spf_dispatch_no_abort cxTables ⟨0⟩ ⟨0, 0, 0, 0⟩ ⟨1, 1, 1, 1⟩ cxQuant 0 15
    (cxState 0) 2 5 6 (Or.inl ⟨rfl, Or.inl rfl, Or.inr (Or.inl rfl)⟩)⟩

/-- C4 as stated is false on one point: with the well-formed parameters
`(ib, cb, ab) = (2, 5, 0)` (a no-alpha mode) and a channel mask that still
enables the alpha channel, the slot loop dereferences the NULL alpha
table: the run fails rather than returning a score. -/
theorem spf_dispatch_cex :
    wellFormedFormat 2 5 0 ∧
    spDispatch cxTables ⟨0⟩ ⟨0, 0, 0, 0⟩ ⟨1, 1, 1, 1⟩ cxQuant 5 0 0 2 15 (cxState 0) =
      .error .nullLookup :=
  ⟨Or.inl ⟨rfl, Or.inl rfl, Or.inl rfl⟩, rfl⟩

end Squish
